import Mathlib

/-!
# Joystick ADC interrupt pipeline (`isr_adc_irq_bitdoglab.c`)

A shallow embedding of the interrupt handler `adc_irq_handler`, the timer
callback `blink_led_callback` and the start-up routine `calibrar_joystick`.

* The `volatile` globals of the C file are the fields of `State`.
* Calls that leave the program (`printf`, `gpio_put`, the repeating-timer
  calls of the Pico SDK) are recorded, in order, as `Effect`s.
* `int` and `long` are 32 bits wide on the RP2040; every `int` operation of the
  source is followed here by `wrap_int`, every store into a `uint16_t`,
  `uint8_t` or `uint32_t` by a reduction modulo `2^16`, `2^8` or `2^32`.
* C division truncates towards zero: `Int.tdiv`.
-/

namespace JoystickIrq

/-! ## Compile-time constants (`#define`s) -/

def JOY_X_ADC_CHANNEL : Nat := 1
def JOY_Y_ADC_CHANNEL : Nat := 0
def LED_AZUL_GPIO : Nat := 12
def CALIBRATION_SAMPLES : Nat := 50
def DEADZONE_Y : Int := 150
def DEADZONE_X : Int := 150
def MIN_BLINK_DELAY_MS : Int := 50
def MAX_BLINK_DELAY_MS : Int := 500
def FAST_MOVE_THRESHOLD : Int := 250
def ADC_RANGE : Int := 4095

/-! ## Machine arithmetic -/

/-- The value held by a 32-bit two's-complement `int` after computing `x`. -/
def wrap_int (x : Int) : Int := (x + 2147483648) % 4294967296 - 2147483648

/-- The C library function `abs` on `int`. -/
def c_abs (x : Int) : Int := if x < 0 then wrap_int (-x) else x

/-! ## Program state and observable calls -/

/-- The globals of the C file, the output level of the LED pin and the set of
repeating timers that are armed in the SDK's alarm pool. -/
structure State where
  centro_y : Nat
  centro_x : Nat
  current_blink_delay_ms : Int
  led_blinking_active : Bool
  /-- The field `blinky_timer.alarm_id`. -/
  blinky_timer_alarm_id : Int
  led_is_on_in_blink_cycle : Bool
  last_adc_y_value : Nat
  last_adc_x_value : Nat
  acionado_y : Bool
  acionado_x : Bool
  /-- Output level of GPIO 12, as last written by `gpio_put`. -/
  led_azul : Bool
  /-- Alarm ids of the repeating timers currently armed. -/
  live_timers : List Int
  deriving DecidableEq, Repr

/-- Calls made by the program to its environment. -/
inductive Effect where
  /-- Call `printf("Iniciando calibração do joystick. ...")` -/
  | print_calib_start
  /-- Call `printf("Calibração concluída: Centro Y(G26)=%d, Centro X(G27)=%d\n", ..)` -/
  | print_calib_done (cy cx : Nat)
  /-- Call `printf("Movimento RÁPIDO no eixo Y! Delta: %d\n", ..)` -/
  | print_fast_y (delta : Int)
  /-- Call `printf("Movimento RÁPIDO no eixo X! Delta: %d\n", ..)` -/
  | print_fast_x (delta : Int)
  /-- Call `printf("Eixo X ACIONADO! Valor: %d, Delta: %d\n", ..)` -/
  | print_x_on (valor : Nat) (delta : Int)
  /-- Call `printf("Eixo X DESATIVADO. Valor: %d\n", ..)` -/
  | print_x_off (valor : Nat)
  /-- Call `printf("Erro ao adicionar timer para piscar Y!\n")` -/
  | print_err_add
  /-- Call `printf("Erro ao re-adicionar timer para piscar Y!\n")` -/
  | print_err_readd
  | gpio_put (gpio : Nat) (value : Bool)
  | cancel_repeating_timer (alarm_id : Int)
  | add_repeating_timer_ms (delay_ms : Int)
  deriving DecidableEq, Repr

/-- A state together with the calls made so far. -/
structure Mach where
  st : State
  out : List Effect
  deriving DecidableEq, Repr

/-- The values of the globals at program start (C initialisers; `blinky_timer`
is zero-initialised), with the LED pin low and no timer armed. -/
def init_state : State :=
  { centro_y := 2048, centro_x := 2048,
    current_blink_delay_ms := MAX_BLINK_DELAY_MS,
    led_blinking_active := false,
    blinky_timer_alarm_id := 0,
    led_is_on_in_blink_cycle := false,
    last_adc_y_value := 0, last_adc_x_value := 0,
    acionado_y := false, acionado_x := false,
    led_azul := false, live_timers := [] }

def printf (m : Mach) (e : Effect) : Mach :=
  { m with out := m.out ++ [e] }

/-- Call `gpio_put(gpio, value)`: only the LED pin is tracked. -/
def gpio_put (m : Mach) (gpio : Nat) (value : Bool) : Mach :=
  { st := { m.st with led_azul := if gpio = LED_AZUL_GPIO then value else m.st.led_azul },
    out := m.out ++ [Effect.gpio_put gpio value] }

/-- Call `cancel_repeating_timer(&blinky_timer)` of the Pico SDK: when the handle
records an alarm id, that alarm is removed from the pool and the handle's id is
cleared. -/
def cancel_repeating_timer (m : Mach) : Mach :=
  let id := m.st.blinky_timer_alarm_id
  if id ≠ 0 then
    { st := { m.st with live_timers := m.st.live_timers.filter (fun t => decide (t ≠ id)),
                        blinky_timer_alarm_id := 0 },
      out := m.out ++ [Effect.cancel_repeating_timer id] }
  else
    { m with out := m.out ++ [Effect.cancel_repeating_timer id] }

/-- Call `add_repeating_timer_ms(delay_ms, blink_led_callback, NULL, &blinky_timer)`
of the Pico SDK. The alarm id the pool hands out, `new_alarm_id`, is supplied by
the environment: the SDK stores it in the handle and reports success exactly when
it is positive, in which case the timer is armed. -/
def add_repeating_timer_ms (m : Mach) (delay_ms : Int) (new_alarm_id : Int) : Mach × Bool :=
  ({ st := { m.st with
               blinky_timer_alarm_id := new_alarm_id,
               live_timers := if new_alarm_id > 0 then new_alarm_id :: m.st.live_timers
                              else m.st.live_timers },
     out := m.out ++ [Effect.add_repeating_timer_ms delay_ms] },
   decide (new_alarm_id > 0))

/-! ## `calibrar_joystick` -/

/-- The accumulator `sum_y` / `sum_x` (a `uint32_t`) after `n` iterations of the
calibration loop, where `adc_read i` is the value that the `i`-th call of
`adc_read()` returns (a `uint16_t`). -/
def calib_sum (adc_read : Nat → Nat) : Nat → Nat
  | 0 => 0
  | n + 1 => (calib_sum adc_read n + adc_read n % 65536) % 4294967296

/-- The routine `calibrar_joystick`; `adc_y` and `adc_x` are the successive
readings of channel 0 and channel 1. -/
def calibrar_joystick (s : State) (adc_y adc_x : Nat → Nat) : Mach :=
  let m0 : Mach := printf ⟨s, []⟩ Effect.print_calib_start
  let sum_y := calib_sum adc_y CALIBRATION_SAMPLES
  let m1 : Mach := { m0 with st := { m0.st with centro_y := (sum_y / CALIBRATION_SAMPLES) % 65536 } }
  let m2 : Mach := { m1 with st := { m1.st with last_adc_y_value := m1.st.centro_y } }
  let sum_x := calib_sum adc_x CALIBRATION_SAMPLES
  let m3 : Mach := { m2 with st := { m2.st with centro_x := (sum_x / CALIBRATION_SAMPLES) % 65536 } }
  let m4 : Mach := { m3 with st := { m3.st with last_adc_x_value := m3.st.centro_x } }
  printf m4 (Effect.print_calib_done m4.st.centro_y m4.st.centro_x)

/-! ## `blink_led_callback` -/

/-- The timer callback; the second component is its return value. -/
def blink_led_callback (s : State) : Mach × Bool :=
  let m0 : Mach := ⟨s, []⟩
  if m0.st.led_blinking_active then
    let m1 : Mach :=
      { m0 with st := { m0.st with led_is_on_in_blink_cycle := !m0.st.led_is_on_in_blink_cycle } }
    if m1.st.led_is_on_in_blink_cycle then
      (gpio_put m1 LED_AZUL_GPIO true, true)
    else
      (gpio_put m1 LED_AZUL_GPIO false, true)
  else
    (gpio_put m0 LED_AZUL_GPIO false, true)

/-! ## `adc_irq_handler` -/

/-- Intermediate and final values of the blink-delay computation. -/
structure BlinkCalc where
  /-- Value of `effective_delta` at the division. -/
  effective_delta : Int
  /-- Value of `max_movable_delta` at the division. -/
  max_movable_delta : Int
  /-- Value of `(long)effective_delta * (MAX_BLINK_DELAY_MS - MIN_BLINK_DELAY_MS)`. -/
  scaled : Int
  /-- The value first stored in `current_blink_delay_ms`, before the clamps. -/
  unclamped : Int
  /-- The value of `current_blink_delay_ms` after the two clamps. -/
  delay : Int
  deriving DecidableEq, Repr

/-- Lines 127-137 of the source, with the constants `DEADZONE_Y`, `ADC_RANGE`,
`MIN_BLINK_DELAY_MS`, `MAX_BLINK_DELAY_MS` as parameters; `abs_delta` is
`abs(delta_y)`. -/
def blink_calc (deadzone adc_range min_delay max_delay abs_delta : Int) : BlinkCalc :=
  let effective_delta0 := wrap_int (abs_delta - deadzone)
  let max_movable_delta0 := wrap_int (wrap_int (adc_range.tdiv 2) - deadzone)
  let effective_delta :=
    if effective_delta0 > max_movable_delta0 then max_movable_delta0 else effective_delta0
  let max_movable_delta := if max_movable_delta0 ≤ 0 then 1 else max_movable_delta0
  let scaled := wrap_int (effective_delta * wrap_int (max_delay - min_delay))
  let unclamped := wrap_int (max_delay - wrap_int (scaled.tdiv max_movable_delta))
  let d1 := if unclamped < min_delay then min_delay else unclamped
  let d2 := if d1 > max_delay then max_delay else d1
  { effective_delta := effective_delta, max_movable_delta := max_movable_delta,
    scaled := scaled, unclamped := unclamped, delay := d2 }

/-- The interrupt handler. `fifo` is what `adc_fifo_get()` delivers and
`selected_input` what `adc_get_selected_input()` delivers; they are narrowed to
`uint16_t` and `uint8_t` as in the source. `new_alarm_id` is the alarm id the
SDK hands out should the handler call `add_repeating_timer_ms`. -/
def adc_irq_handler (s : State) (fifo selected_input : Nat) (new_alarm_id : Int) : Mach :=
  let valor : Nat := fifo % 65536
  let channel_read : Nat := selected_input % 256
  let m0 : Mach := ⟨s, []⟩
  if channel_read = JOY_Y_ADC_CHANNEL then
    let move := c_abs (wrap_int ((valor : Int) - (m0.st.last_adc_y_value : Int)))
    let m1 : Mach :=
      if move > FAST_MOVE_THRESHOLD then printf m0 (Effect.print_fast_y move) else m0
    let m2 : Mach := { m1 with st := { m1.st with last_adc_y_value := valor } }
    let delta_y : Int := wrap_int ((valor : Int) - (m2.st.centro_y : Int))
    if c_abs delta_y > DEADZONE_Y then
      let m3 : Mach :=
        if !m2.st.acionado_y then { m2 with st := { m2.st with acionado_y := true } } else m2
      let bc := blink_calc DEADZONE_Y ADC_RANGE MIN_BLINK_DELAY_MS MAX_BLINK_DELAY_MS
        (c_abs delta_y)
      let m4 : Mach := { m3 with st := { m3.st with current_blink_delay_ms := bc.delay } }
      if !m4.st.led_blinking_active then
        let m5 : Mach := { m4 with st := { m4.st with led_blinking_active := true } }
        let m6 : Mach := { m5 with st := { m5.st with led_is_on_in_blink_cycle := true } }
        let m7 : Mach := gpio_put m6 LED_AZUL_GPIO true
        let m8 : Mach :=
          if m7.st.blinky_timer_alarm_id ≠ 0 then cancel_repeating_timer m7 else m7
        let r := add_repeating_timer_ms m8 m8.st.current_blink_delay_ms new_alarm_id
        if !r.2 then printf r.1 Effect.print_err_add else r.1
      else
        let m5 : Mach :=
          if m4.st.blinky_timer_alarm_id ≠ 0 then cancel_repeating_timer m4 else m4
        let r := add_repeating_timer_ms m5 m5.st.current_blink_delay_ms new_alarm_id
        if !r.2 then printf r.1 Effect.print_err_readd else r.1
    else
      let m3 : Mach :=
        if m2.st.acionado_y then { m2 with st := { m2.st with acionado_y := false } } else m2
      if m3.st.led_blinking_active then
        let m4 : Mach :=
          if m3.st.blinky_timer_alarm_id ≠ 0 then cancel_repeating_timer m3 else m3
        let m5 : Mach := { m4 with st := { m4.st with blinky_timer_alarm_id := 0 } }
        let m6 : Mach := { m5 with st := { m5.st with led_blinking_active := false } }
        let m7 : Mach := { m6 with st := { m6.st with led_is_on_in_blink_cycle := false } }
        gpio_put m7 LED_AZUL_GPIO false
      else m3
  else if channel_read = JOY_X_ADC_CHANNEL then
    let move := c_abs (wrap_int ((valor : Int) - (m0.st.last_adc_x_value : Int)))
    let m1 : Mach :=
      if move > FAST_MOVE_THRESHOLD then printf m0 (Effect.print_fast_x move) else m0
    let m2 : Mach := { m1 with st := { m1.st with last_adc_x_value := valor } }
    let delta_x : Int := wrap_int ((valor : Int) - (m2.st.centro_x : Int))
    if c_abs delta_x > DEADZONE_X then
      if !m2.st.acionado_x then
        let m3 : Mach := { m2 with st := { m2.st with acionado_x := true } }
        printf m3 (Effect.print_x_on valor delta_x)
      else m2
    else
      if m2.st.acionado_x then
        let m3 : Mach := { m2 with st := { m2.st with acionado_x := false } }
        printf m3 (Effect.print_x_off valor)
      else m2
  else m0

/-! ## Event sequences -/

/-- One invocation of an entry point after start-up. -/
inductive Event where
  /-- A completed conversion: `adc_irq_handler` runs. -/
  | adc_irq (fifo selected_input : Nat) (new_alarm_id : Int)
  /-- The repeating timer fires: `blink_led_callback` runs. -/
  | timer_tick
  deriving DecidableEq, Repr

def step (s : State) : Event → Mach
  | Event.adc_irq fifo sel id => adc_irq_handler s fifo sel id
  | Event.timer_tick => (blink_led_callback s).1

/-- The state after a sequence of invocations. -/
def run (s : State) : List Event → State
  | [] => s
  | e :: es => run (step s e).st es

/-- The calls made during a sequence of invocations, in order. -/
def run_out (s : State) : List Event → List Effect
  | [] => []
  | e :: es => (step s e).out ++ run_out (step s e).st es

/-- The rapid-movement notifications among a list of calls. -/
def is_fast_move : Effect → Bool
  | Effect.print_fast_y _ => true
  | Effect.print_fast_x _ => true
  | _ => false

/-- The calls of `add_repeating_timer_ms` among a list of calls. -/
def is_add_timer : Effect → Bool
  | Effect.add_repeating_timer_ms _ => true
  | _ => false

/-- A dispatch that can start blinking: a Y-channel sample outside the deadzone
of the centre stored in `s`. -/
def activates_y (s : State) : Event → Bool
  | Event.adc_irq fifo sel _ =>
      decide (sel % 256 = JOY_Y_ADC_CHANNEL) &&
      decide (c_abs (wrap_int (((fifo % 65536 : Nat) : Int) - (s.centro_y : Int))) > DEADZONE_Y)
  | Event.timer_tick => false


/-- The calls of `gpio_put` among a list of calls. -/
def is_gpio_put : Effect → Bool
  | Effect.gpio_put _ _ => true
  | _ => false

/-- No invocation of the sequence is a Y dispatch outside the deadzone. -/
def no_activation (s : State) : List Event → Bool
  | [] => true
  | e :: es => !activates_y s e && no_activation (step s e).st es

/-! ## The mapping as the specification words it -/

/-- The specification's `clamp(x, lo, hi)`. -/
def clamp (x lo hi : Int) : Int := max lo (min x hi)

/-- The blink period as the specification states it for a deflection
`abs_delta` beyond the deadzone, with deadzone 150, full scale 4095 and the
period bounds 50 and 500:
`max_effective = max((4095 / 2) - 150, 1)`,
`effective = min(abs_delta - 150, max_effective)`,
`period = clamp(500 - (effective * (500 - 50)) / max_effective, 50, 500)`,
the divisions truncating. -/
def spec_period (abs_delta : Int) : Int :=
  let max_effective := max (Int.tdiv 4095 2 - 150) 1
  let effective := min (abs_delta - 150) max_effective
  clamp (500 - Int.tdiv (effective * (500 - 50)) max_effective) 50 500

/-! ## Further classifiers and invariants -/

/-- The X activation and deactivation notifications among a list of calls. -/
def is_x_edge : Effect → Bool
  | Effect.print_x_on _ _ => true
  | Effect.print_x_off _ => true
  | _ => false

/-- The two timer error logs among a list of calls. -/
def is_timer_error : Effect → Bool
  | Effect.print_err_add => true
  | Effect.print_err_readd => true
  | _ => false

/-- The handle `blinky_timer` accounts for every armed timer: the pool holds the
alarm recorded in the handle when that id is a valid (positive) one, and
nothing else. -/
def timers_tracked (s : State) : Prop :=
  s.live_timers = if s.blinky_timer_alarm_id > 0 then [s.blinky_timer_alarm_id] else []

instance (s : State) : Decidable (timers_tracked s) := by
  unfold timers_tracked; infer_instance

/-- The LED pin shows the phase flag, and both are off while blinking is
disengaged. -/
def led_follows_phase (s : State) : Prop :=
  s.led_azul = s.led_is_on_in_blink_cycle ∧
    (s.led_blinking_active = false → s.led_is_on_in_blink_cycle = false)

instance (s : State) : Decidable (led_follows_phase s) := by
  unfold led_follows_phase; infer_instance

/-- A value that a signed 32-bit `int` can hold. -/
def fits_int (x : Int) : Prop := -2147483648 ≤ x ∧ x ≤ 2147483647

instance (x : Int) : Decidable (fits_int x) := by
  unfold fits_int; infer_instance

/-- Lines 127-137 of the source computed in unbounded integer arithmetic: the
same steps as `blink_calc`, without any 32-bit wrap. -/
def blink_calc_exact (deadzone adc_range min_delay max_delay abs_delta : Int) : BlinkCalc :=
  let effective_delta0 := abs_delta - deadzone
  let max_movable_delta0 := adc_range.tdiv 2 - deadzone
  let effective_delta :=
    if effective_delta0 > max_movable_delta0 then max_movable_delta0 else effective_delta0
  let max_movable_delta := if max_movable_delta0 ≤ 0 then 1 else max_movable_delta0
  let scaled := effective_delta * (max_delay - min_delay)
  let unclamped := max_delay - scaled.tdiv max_movable_delta
  let d1 := if unclamped < min_delay then min_delay else unclamped
  let d2 := if d1 > max_delay then max_delay else d1
  { effective_delta := effective_delta, max_movable_delta := max_movable_delta,
    scaled := scaled, unclamped := unclamped, delay := d2 }

/-- The dispatches of a list of raw samples on the X channel; the alarm id
offered to each dispatch is `id`. -/
def x_dispatches (samples : List Nat) (id : Int) : List Event :=
  samples.map (fun v => Event.adc_irq v JOY_X_ADC_CHANNEL id)

/-! ## Arithmetic lemmas -/

/-- An `int` operation whose exact result fits 32 bits does not wrap. -/
theorem wrap_int_of_bounds (x : Int) (h1 : -2147483648 ≤ x) (h2 : x < 2147483648) :
    wrap_int x = x := by
  unfold wrap_int; omega

/-- Away from `INT_MIN`, `abs` is the absolute value. -/
theorem c_abs_of_bounds (x : Int) (h1 : -2147483648 < x) (h2 : x < 2147483648) :
    c_abs x = |x| := by
  unfold c_abs
  split
  · rw [wrap_int_of_bounds _ (by omega) (by omega)]; exact (abs_of_neg (by assumption)).symm
  · exact (abs_of_nonneg (by omega)).symm

/-- The distance `abs(a - b)` of two `uint16_t` values is computed exactly. -/
theorem c_abs_sub_u16 (a b : Nat) (ha : a < 65536) (hb : b < 65536) :
    c_abs (wrap_int ((a : Int) - (b : Int))) = |(a : Int) - (b : Int)| := by
  rw [wrap_int_of_bounds _ (by omega) (by omega)]
  exact c_abs_of_bounds _ (by omega) (by omega)

/-! ## Closed forms of the handler, branch by branch -/

/-- A Y dispatch outside the deadzone while blinking is off. -/
theorem y_start_eq (s : State) (fifo sel : Nat) (id : Int)
    (hsel : sel % 256 = JOY_Y_ADC_CHANNEL)
    (hact : c_abs (wrap_int (((fifo % 65536 : Nat) : Int) - (s.centro_y : Int))) > DEADZONE_Y)
    (hoff : s.led_blinking_active = false) :
    adc_irq_handler s fifo sel id =
      { st := { s with
                  last_adc_y_value := fifo % 65536
                  acionado_y := true
                  current_blink_delay_ms :=
                    (blink_calc DEADZONE_Y ADC_RANGE MIN_BLINK_DELAY_MS MAX_BLINK_DELAY_MS
                      (c_abs (wrap_int (((fifo % 65536 : Nat) : Int) - (s.centro_y : Int))))).delay
                  led_blinking_active := true
                  led_is_on_in_blink_cycle := true
                  led_azul := true
                  blinky_timer_alarm_id := id
                  live_timers :=
                    (if id > 0 then [id] else []) ++
                      (if s.blinky_timer_alarm_id ≠ 0 then
                        s.live_timers.filter (fun t => decide (t ≠ s.blinky_timer_alarm_id))
                        else s.live_timers) },
        out :=
          (if c_abs (wrap_int (((fifo % 65536 : Nat) : Int) - (s.last_adc_y_value : Int)))
                > FAST_MOVE_THRESHOLD
            then [Effect.print_fast_y
              (c_abs (wrap_int (((fifo % 65536 : Nat) : Int) - (s.last_adc_y_value : Int))))]
            else [])
          ++ [Effect.gpio_put LED_AZUL_GPIO true]
          ++ (if s.blinky_timer_alarm_id ≠ 0
                then [Effect.cancel_repeating_timer s.blinky_timer_alarm_id] else [])
          ++ [Effect.add_repeating_timer_ms
                (blink_calc DEADZONE_Y ADC_RANGE MIN_BLINK_DELAY_MS MAX_BLINK_DELAY_MS
                  (c_abs (wrap_int (((fifo % 65536 : Nat) : Int) - (s.centro_y : Int))))).delay]
          ++ (if id > 0 then [] else [Effect.print_err_add]) } := by
  obtain ⟨cy, cx, dl, act, al, lon, ly, lx, ay, ax, led, live⟩ := s
  simp only at hoff hact
  subst hoff
  unfold adc_irq_handler
  generalize fifo % 65536 = valor at *
  by_cases h1 : c_abs (wrap_int ((valor : Int) - (ly : Int))) > FAST_MOVE_THRESHOLD <;>
  by_cases h2 : al = 0 <;>
  by_cases h3 : id > 0 <;>
  cases ay <;>
  simp [hsel, hact, h1, h2, h3, printf, gpio_put, cancel_repeating_timer,
    add_repeating_timer_ms]

/-- A Y dispatch outside the deadzone while blinking is already on. -/
theorem y_retarget_eq (s : State) (fifo sel : Nat) (id : Int)
    (hsel : sel % 256 = JOY_Y_ADC_CHANNEL)
    (hact : c_abs (wrap_int (((fifo % 65536 : Nat) : Int) - (s.centro_y : Int))) > DEADZONE_Y)
    (hon : s.led_blinking_active = true) :
    adc_irq_handler s fifo sel id =
      { st := { s with
                  last_adc_y_value := fifo % 65536
                  acionado_y := true
                  current_blink_delay_ms :=
                    (blink_calc DEADZONE_Y ADC_RANGE MIN_BLINK_DELAY_MS MAX_BLINK_DELAY_MS
                      (c_abs (wrap_int (((fifo % 65536 : Nat) : Int) - (s.centro_y : Int))))).delay
                  blinky_timer_alarm_id := id
                  live_timers :=
                    (if id > 0 then [id] else []) ++
                      (if s.blinky_timer_alarm_id ≠ 0 then
                        s.live_timers.filter (fun t => decide (t ≠ s.blinky_timer_alarm_id))
                        else s.live_timers) },
        out :=
          (if c_abs (wrap_int (((fifo % 65536 : Nat) : Int) - (s.last_adc_y_value : Int)))
                > FAST_MOVE_THRESHOLD
            then [Effect.print_fast_y
              (c_abs (wrap_int (((fifo % 65536 : Nat) : Int) - (s.last_adc_y_value : Int))))]
            else [])
          ++ (if s.blinky_timer_alarm_id ≠ 0
                then [Effect.cancel_repeating_timer s.blinky_timer_alarm_id] else [])
          ++ [Effect.add_repeating_timer_ms
                (blink_calc DEADZONE_Y ADC_RANGE MIN_BLINK_DELAY_MS MAX_BLINK_DELAY_MS
                  (c_abs (wrap_int (((fifo % 65536 : Nat) : Int) - (s.centro_y : Int))))).delay]
          ++ (if id > 0 then [] else [Effect.print_err_readd]) } := by
  obtain ⟨cy, cx, dl, act, al, lon, ly, lx, ay, ax, led, live⟩ := s
  simp only at hon hact
  subst hon
  unfold adc_irq_handler
  generalize fifo % 65536 = valor at *
  by_cases h1 : c_abs (wrap_int ((valor : Int) - (ly : Int))) > FAST_MOVE_THRESHOLD <;>
  by_cases h2 : al = 0 <;>
  by_cases h3 : id > 0 <;>
  cases ay <;>
  simp [hsel, hact, h1, h2, h3, printf, gpio_put, cancel_repeating_timer,
    add_repeating_timer_ms]

/-- A Y dispatch inside the deadzone while blinking is on. -/
theorem y_stop_eq (s : State) (fifo sel : Nat) (id : Int)
    (hsel : sel % 256 = JOY_Y_ADC_CHANNEL)
    (hdead : ¬ c_abs (wrap_int (((fifo % 65536 : Nat) : Int) - (s.centro_y : Int))) > DEADZONE_Y)
    (hon : s.led_blinking_active = true) :
    adc_irq_handler s fifo sel id =
      { st := { s with
                  last_adc_y_value := fifo % 65536
                  acionado_y := false
                  blinky_timer_alarm_id := 0
                  led_blinking_active := false
                  led_is_on_in_blink_cycle := false
                  led_azul := false
                  live_timers :=
                    if s.blinky_timer_alarm_id ≠ 0 then
                      s.live_timers.filter (fun t => decide (t ≠ s.blinky_timer_alarm_id))
                    else s.live_timers },
        out :=
          (if c_abs (wrap_int (((fifo % 65536 : Nat) : Int) - (s.last_adc_y_value : Int)))
                > FAST_MOVE_THRESHOLD
            then [Effect.print_fast_y
              (c_abs (wrap_int (((fifo % 65536 : Nat) : Int) - (s.last_adc_y_value : Int))))]
            else [])
          ++ (if s.blinky_timer_alarm_id ≠ 0
                then [Effect.cancel_repeating_timer s.blinky_timer_alarm_id] else [])
          ++ [Effect.gpio_put LED_AZUL_GPIO false] } := by
  obtain ⟨cy, cx, dl, act, al, lon, ly, lx, ay, ax, led, live⟩ := s
  simp only at hon hdead
  subst hon
  unfold adc_irq_handler
  generalize fifo % 65536 = valor at *
  by_cases h1 : c_abs (wrap_int ((valor : Int) - (ly : Int))) > FAST_MOVE_THRESHOLD <;>
  by_cases h2 : al = 0 <;>
  cases ay <;>
  simp [hsel, hdead, h1, h2, printf, gpio_put, cancel_repeating_timer]

/-- A Y dispatch inside the deadzone while blinking is off. -/
theorem y_idle_eq (s : State) (fifo sel : Nat) (id : Int)
    (hsel : sel % 256 = JOY_Y_ADC_CHANNEL)
    (hdead : ¬ c_abs (wrap_int (((fifo % 65536 : Nat) : Int) - (s.centro_y : Int))) > DEADZONE_Y)
    (hoff : s.led_blinking_active = false) :
    adc_irq_handler s fifo sel id =
      { st := { s with last_adc_y_value := fifo % 65536, acionado_y := false },
        out :=
          (if c_abs (wrap_int (((fifo % 65536 : Nat) : Int) - (s.last_adc_y_value : Int)))
                > FAST_MOVE_THRESHOLD
            then [Effect.print_fast_y
              (c_abs (wrap_int (((fifo % 65536 : Nat) : Int) - (s.last_adc_y_value : Int))))]
            else []) } := by
  obtain ⟨cy, cx, dl, act, al, lon, ly, lx, ay, ax, led, live⟩ := s
  simp only at hoff hdead
  subst hoff
  unfold adc_irq_handler
  generalize fifo % 65536 = valor at *
  by_cases h1 : c_abs (wrap_int ((valor : Int) - (ly : Int))) > FAST_MOVE_THRESHOLD <;>
  cases ay <;>
  simp [hsel, hdead, h1, printf]

/-- An X dispatch. -/
theorem x_eq (s : State) (fifo sel : Nat) (id : Int)
    (hsel : sel % 256 = JOY_X_ADC_CHANNEL) :
    adc_irq_handler s fifo sel id =
      { st := { s with
                  last_adc_x_value := fifo % 65536
                  acionado_x :=
                    decide (c_abs (wrap_int (((fifo % 65536 : Nat) : Int) - (s.centro_x : Int)))
                      > DEADZONE_X) },
        out :=
          (if c_abs (wrap_int (((fifo % 65536 : Nat) : Int) - (s.last_adc_x_value : Int)))
                > FAST_MOVE_THRESHOLD
            then [Effect.print_fast_x
              (c_abs (wrap_int (((fifo % 65536 : Nat) : Int) - (s.last_adc_x_value : Int))))]
            else [])
          ++ (if c_abs (wrap_int (((fifo % 65536 : Nat) : Int) - (s.centro_x : Int))) > DEADZONE_X
              then (if s.acionado_x then []
                    else [Effect.print_x_on (fifo % 65536)
                            (wrap_int (((fifo % 65536 : Nat) : Int) - (s.centro_x : Int)))])
              else (if s.acionado_x then [Effect.print_x_off (fifo % 65536)] else [])) } := by
  obtain ⟨cy, cx, dl, act, al, lon, ly, lx, ay, ax, led, live⟩ := s
  unfold adc_irq_handler
  generalize fifo % 65536 = valor at *
  by_cases h1 : c_abs (wrap_int ((valor : Int) - (lx : Int))) > FAST_MOVE_THRESHOLD <;>
  by_cases h2 : c_abs (wrap_int ((valor : Int) - (cx : Int))) > DEADZONE_X <;>
  cases ax <;>
  simp [hsel, h1, h2, printf, JOY_X_ADC_CHANNEL, JOY_Y_ADC_CHANNEL]

/-- A dispatch for a channel that is neither Y nor X. -/
theorem other_channel_eq (s : State) (fifo sel : Nat) (id : Int)
    (hy : sel % 256 ≠ JOY_Y_ADC_CHANNEL) (hx : sel % 256 ≠ JOY_X_ADC_CHANNEL) :
    adc_irq_handler s fifo sel id = { st := s, out := [] } := by
  unfold adc_irq_handler
  simp [hy, hx]

/-! ## The blink-delay computation with the constants of the source -/

/-- The constant `ADC_RANGE / 2`. -/
theorem tdiv_adc_range : ADC_RANGE.tdiv 2 = 2047 := by decide

/-- With the constants of the source and a deflection beyond the deadzone, no
operation of the computation wraps and both clamps are idle. -/
theorem blink_calc_src (a : Int) (h1 : 150 < a) (h2 : a ≤ 65535) :
    blink_calc DEADZONE_Y ADC_RANGE MIN_BLINK_DELAY_MS MAX_BLINK_DELAY_MS a =
      { effective_delta := min (a - 150) 1897,
        max_movable_delta := 1897,
        scaled := min (a - 150) 1897 * 450,
        unclamped := 500 - (min (a - 150) 1897 * 450) / 1897,
        delay := 500 - (min (a - 150) 1897 * 450) / 1897 } := by
  have hm : wrap_int (wrap_int (ADC_RANGE.tdiv 2) - DEADZONE_Y) = 1897 := by
    rw [tdiv_adc_range]; decide
  have he : wrap_int (a - DEADZONE_Y) = a - 150 := by
    unfold DEADZONE_Y; exact wrap_int_of_bounds _ (by omega) (by omega)
  have hw : wrap_int (MAX_BLINK_DELAY_MS - MIN_BLINK_DELAY_MS) = 450 := by decide
  have hmin : (if a - 150 > 1897 then (1897 : Int) else a - 150) = min (a - 150) 1897 := by
    split <;> omega
  have hi : (if (1897 : Int) ≤ 0 then (1 : Int) else 1897) = 1897 := by decide
  have hs : wrap_int (min (a - 150) 1897 * 450) = min (a - 150) 1897 * 450 :=
    wrap_int_of_bounds _ (by omega) (by omega)
  have hd : (min (a - 150) 1897 * 450).tdiv 1897 = (min (a - 150) 1897 * 450) / 1897 :=
    Int.tdiv_eq_ediv (by omega) (by omega)
  have hq : wrap_int ((min (a - 150) 1897 * 450) / 1897) = (min (a - 150) 1897 * 450) / 1897 :=
    wrap_int_of_bounds _ (by omega) (by omega)
  have hu : wrap_int (MAX_BLINK_DELAY_MS - (min (a - 150) 1897 * 450) / 1897)
      = 500 - (min (a - 150) 1897 * 450) / 1897 := by
    unfold MAX_BLINK_DELAY_MS; exact wrap_int_of_bounds _ (by omega) (by omega)
  unfold blink_calc
  simp only [hm, he, hw, hmin, hs, hi, hd, hq, hu]
  have hc1 : ¬ (500 - (min (a - 150) 1897 * 450) / 1897 < MIN_BLINK_DELAY_MS) := by
    unfold MIN_BLINK_DELAY_MS; omega
  have hc2 : ¬ (500 - (min (a - 150) 1897 * 450) / 1897 > MAX_BLINK_DELAY_MS) := by
    unfold MAX_BLINK_DELAY_MS; omega
  simp [hc1, hc2]

/-- The two clamps put the delay between the bounds, whatever was computed. -/
theorem blink_calc_delay_range (deadzone adc_range min_delay max_delay a : Int)
    (h : min_delay ≤ max_delay) :
    min_delay ≤ (blink_calc deadzone adc_range min_delay max_delay a).delay ∧
      (blink_calc deadzone adc_range min_delay max_delay a).delay ≤ max_delay := by
  unfold blink_calc
  simp only
  split_ifs <;> omega

/-! ## Consequences of the closed forms -/

/-- Narrowing to `uint16_t` leaves a value below `2^16` alone. -/
theorem mod_u16 (v : Nat) (h : v < 65536) : v % 65536 = v := Nat.mod_eq_of_lt h

/-- The Y channel number fits `uint8_t`. -/
theorem sel_y : JOY_Y_ADC_CHANNEL % 256 = JOY_Y_ADC_CHANNEL := by decide

/-- The X channel number fits `uint8_t`. -/
theorem sel_x : JOY_X_ADC_CHANNEL % 256 = JOY_X_ADC_CHANNEL := by decide

/-- After a Y dispatch the flag `acionado_y` tells whether the sample was
outside the deadzone. -/
theorem y_flag_eq (s : State) (fifo sel : Nat) (id : Int)
    (hsel : sel % 256 = JOY_Y_ADC_CHANNEL) :
    (adc_irq_handler s fifo sel id).st.acionado_y =
      decide (c_abs (wrap_int (((fifo % 65536 : Nat) : Int) - (s.centro_y : Int)))
        > DEADZONE_Y) := by
  by_cases hact :
      c_abs (wrap_int (((fifo % 65536 : Nat) : Int) - (s.centro_y : Int))) > DEADZONE_Y
  · cases hb : s.led_blinking_active
    · rw [y_start_eq s fifo sel id hsel hact hb]; exact (decide_eq_true hact).symm
    · rw [y_retarget_eq s fifo sel id hsel hact hb]; exact (decide_eq_true hact).symm
  · cases hb : s.led_blinking_active
    · rw [y_idle_eq s fifo sel id hsel hact hb]; exact (decide_eq_false hact).symm
    · rw [y_stop_eq s fifo sel id hsel hact hb]; exact (decide_eq_false hact).symm

/-- After a Y dispatch blinking is engaged exactly when the sample was outside
the deadzone. -/
theorem y_blinking_eq (s : State) (fifo sel : Nat) (id : Int)
    (hsel : sel % 256 = JOY_Y_ADC_CHANNEL) :
    (adc_irq_handler s fifo sel id).st.led_blinking_active =
      decide (c_abs (wrap_int (((fifo % 65536 : Nat) : Int) - (s.centro_y : Int)))
        > DEADZONE_Y) := by
  by_cases hact :
      c_abs (wrap_int (((fifo % 65536 : Nat) : Int) - (s.centro_y : Int))) > DEADZONE_Y
  · cases hb : s.led_blinking_active
    · rw [y_start_eq s fifo sel id hsel hact hb]; exact (decide_eq_true hact).symm
    · rw [y_retarget_eq s fifo sel id hsel hact hb]
      exact hb.trans (decide_eq_true hact).symm
  · cases hb : s.led_blinking_active
    · rw [y_idle_eq s fifo sel id hsel hact hb]
      exact hb.trans (decide_eq_false hact).symm
    · rw [y_stop_eq s fifo sel id hsel hact hb]; exact (decide_eq_false hact).symm

/-- The delay stored by a Y dispatch outside the deadzone. -/
theorem y_active_delay (s : State) (fifo sel : Nat) (id : Int)
    (hsel : sel % 256 = JOY_Y_ADC_CHANNEL)
    (hact : c_abs (wrap_int (((fifo % 65536 : Nat) : Int) - (s.centro_y : Int))) > DEADZONE_Y) :
    (adc_irq_handler s fifo sel id).st.current_blink_delay_ms =
      (blink_calc DEADZONE_Y ADC_RANGE MIN_BLINK_DELAY_MS MAX_BLINK_DELAY_MS
        (c_abs (wrap_int (((fifo % 65536 : Nat) : Int) - (s.centro_y : Int))))).delay := by
  cases hb : s.led_blinking_active
  · rw [y_start_eq s fifo sel id hsel hact hb]
  · rw [y_retarget_eq s fifo sel id hsel hact hb]

/-- A dispatch either leaves the delay alone or stores a freshly computed one. -/
theorem handler_delay_cases (s : State) (fifo sel : Nat) (id : Int) :
    (adc_irq_handler s fifo sel id).st.current_blink_delay_ms = s.current_blink_delay_ms ∨
    ∃ a, (adc_irq_handler s fifo sel id).st.current_blink_delay_ms =
      (blink_calc DEADZONE_Y ADC_RANGE MIN_BLINK_DELAY_MS MAX_BLINK_DELAY_MS a).delay := by
  by_cases hy : sel % 256 = JOY_Y_ADC_CHANNEL
  · by_cases hact :
        c_abs (wrap_int (((fifo % 65536 : Nat) : Int) - (s.centro_y : Int))) > DEADZONE_Y
    · exact Or.inr ⟨_, y_active_delay s fifo sel id hy hact⟩
    · cases hb : s.led_blinking_active
      · rw [y_idle_eq s fifo sel id hy hact hb]; exact Or.inl rfl
      · rw [y_stop_eq s fifo sel id hy hact hb]; exact Or.inl rfl
  · by_cases hx : sel % 256 = JOY_X_ADC_CHANNEL
    · rw [x_eq s fifo sel id hx]; exact Or.inl rfl
    · rw [other_channel_eq s fifo sel id hy hx]; exact Or.inl rfl

/-- The timer callback changes neither the delay nor the two activation flags
nor the blinking flag. -/
theorem tick_frame (s : State) :
    (blink_led_callback s).1.st.current_blink_delay_ms = s.current_blink_delay_ms ∧
    (blink_led_callback s).1.st.led_blinking_active = s.led_blinking_active ∧
    (blink_led_callback s).1.st.acionado_y = s.acionado_y ∧
    (blink_led_callback s).1.st.centro_y = s.centro_y := by
  unfold blink_led_callback
  cases h1 : s.led_blinking_active <;> cases h2 : s.led_is_on_in_blink_cycle <;>
    simp [gpio_put, h1, h2]

/-- Every invocation keeps the delay between the two bounds. -/
theorem step_delay_range (s : State) (e : Event)
    (h : MIN_BLINK_DELAY_MS ≤ s.current_blink_delay_ms ∧
      s.current_blink_delay_ms ≤ MAX_BLINK_DELAY_MS) :
    MIN_BLINK_DELAY_MS ≤ (step s e).st.current_blink_delay_ms ∧
      (step s e).st.current_blink_delay_ms ≤ MAX_BLINK_DELAY_MS := by
  cases e with
  | adc_irq fifo sel id =>
    rcases handler_delay_cases s fifo sel id with h1 | ⟨a, h1⟩
    · simp only [step]; rw [h1]; exact h
    · simp only [step]; rw [h1]
      exact blink_calc_delay_range _ _ _ _ _ (by decide)
  | timer_tick =>
    simp only [step]; rw [(tick_frame s).1]; exact h

/-! ## Claims -/

/-- C1: for every 16-bit sample and every 16-bit centre, a Y dispatch (resp. an
X dispatch) leaves `acionado_y` (resp. `acionado_x`) equal to
`|sample - centre| > 150`; the flag is false at distance 150 and true at
distance 151. -/
theorem acionado_eq_beyond_deadzone (s : State) (sample : Nat) (id : Int)
    (hs : sample < 65536) (hy : s.centro_y < 65536) (hx : s.centro_x < 65536) :
    ((adc_irq_handler s sample JOY_Y_ADC_CHANNEL id).st.acionado_y
        = decide (|(sample : Int) - (s.centro_y : Int)| > 150)) ∧
    ((adc_irq_handler s sample JOY_X_ADC_CHANNEL id).st.acionado_x
        = decide (|(sample : Int) - (s.centro_x : Int)| > 150)) ∧
    (|(sample : Int) - (s.centro_y : Int)| = 150 →
        (adc_irq_handler s sample JOY_Y_ADC_CHANNEL id).st.acionado_y = false) ∧
    (|(sample : Int) - (s.centro_y : Int)| = 151 →
        (adc_irq_handler s sample JOY_Y_ADC_CHANNEL id).st.acionado_y = true) ∧
    (|(sample : Int) - (s.centro_x : Int)| = 150 →
        (adc_irq_handler s sample JOY_X_ADC_CHANNEL id).st.acionado_x = false) ∧
    (|(sample : Int) - (s.centro_x : Int)| = 151 →
        (adc_irq_handler s sample JOY_X_ADC_CHANNEL id).st.acionado_x = true) := by
  have e1 : (adc_irq_handler s sample JOY_Y_ADC_CHANNEL id).st.acionado_y
        = decide (|(sample : Int) - (s.centro_y : Int)| > 150) := by
    rw [y_flag_eq s sample _ id sel_y, mod_u16 sample hs, c_abs_sub_u16 _ _ hs hy]
    rfl
  have e2 : (adc_irq_handler s sample JOY_X_ADC_CHANNEL id).st.acionado_x
        = decide (|(sample : Int) - (s.centro_x : Int)| > 150) := by
    rw [x_eq s sample _ id sel_x, mod_u16 sample hs, c_abs_sub_u16 _ _ hs hx]
    rfl
  refine ⟨e1, e2, ?_, ?_, ?_, ?_⟩
  · intro h; rw [e1, h]; decide
  · intro h; rw [e1, h]; decide
  · intro h; rw [e2, h]; decide
  · intro h; rw [e2, h]; decide

/-- Instance of `acionado_eq_beyond_deadzone` at the initial state: sample 2199 is at
distance 151 of the centre 2048, sample 2198 at distance 150. -/
theorem acionado_eq_beyond_deadzone_witness :
    (adc_irq_handler init_state 2199 JOY_Y_ADC_CHANNEL 1).st.acionado_y = true ∧
    (adc_irq_handler init_state 2198 JOY_X_ADC_CHANNEL 1).st.acionado_x = false :=
  ⟨(acionado_eq_beyond_deadzone init_state 2199 1 (by decide) (by decide) (by decide)).2.2.2.1
      (by decide),
   (acionado_eq_beyond_deadzone init_state 2198 1 (by decide) (by decide) (by decide)).2.2.2.2.1
      (by decide)⟩

/-- The delay stays between the bounds along any sequence of invocations. -/
theorem run_delay_range (es : List Event) (s : State)
    (h : MIN_BLINK_DELAY_MS ≤ s.current_blink_delay_ms ∧
      s.current_blink_delay_ms ≤ MAX_BLINK_DELAY_MS) :
    MIN_BLINK_DELAY_MS ≤ (run s es).current_blink_delay_ms ∧
      (run s es).current_blink_delay_ms ≤ MAX_BLINK_DELAY_MS := by
  induction es generalizing s with
  | nil => exact h
  | cons e es ih => exact ih _ (step_delay_range s e h)

/-- C2: starting from any state whose `current_blink_delay_ms` is 500 (the
initial value), whatever the centres and the other globals, after any sequence
of `adc_irq_handler` and `blink_led_callback` invocations with any samples and
channels `current_blink_delay_ms` lies in `[50, 500]`. -/
theorem blink_delay_always_in_range (s0 : State) (es : List Event)
    (h0 : s0.current_blink_delay_ms = 500) :
    50 ≤ (run s0 es).current_blink_delay_ms ∧ (run s0 es).current_blink_delay_ms ≤ 500 := by
  have h := run_delay_range es s0 (by rw [h0]; decide)
  exact h

/-- Instance of `blink_delay_always_in_range` at the initial state, for a run through
both extremes of the Y axis and a tick. -/
theorem blink_delay_always_in_range_witness :
    50 ≤ (run init_state [Event.adc_irq 4095 0 1, Event.timer_tick,
            Event.adc_irq 0 0 2]).current_blink_delay_ms ∧
    (run init_state [Event.adc_irq 4095 0 1, Event.timer_tick,
            Event.adc_irq 0 0 2]).current_blink_delay_ms ≤ 500 :=
  blink_delay_always_in_range init_state
    [Event.adc_irq 4095 0 1, Event.timer_tick, Event.adc_irq 0 0 2] (by decide)

/-- The delay stored by a Y dispatch of a 16-bit sample outside the deadzone of
a 16-bit centre, in unbounded integer arithmetic. -/
theorem y_active_delay_u16 (s : State) (sample : Nat) (id : Int)
    (hs : sample < 65536) (hc : s.centro_y < 65536)
    (hact : |(sample : Int) - (s.centro_y : Int)| > 150) :
    (adc_irq_handler s sample JOY_Y_ADC_CHANNEL id).st.current_blink_delay_ms =
      500 - (min (|(sample : Int) - (s.centro_y : Int)| - 150) 1897 * 450) / 1897 := by
  have habs := c_abs_sub_u16 sample s.centro_y hs hc
  have hle : |(sample : Int) - (s.centro_y : Int)| ≤ 65535 := by
    rw [abs_le]; omega
  have hact2 : c_abs (wrap_int (((sample % 65536 : Nat) : Int) - (s.centro_y : Int)))
      > DEADZONE_Y := by
    rw [mod_u16 sample hs, habs]; exact hact
  rw [y_active_delay s sample _ id sel_y hact2, mod_u16 sample hs, habs,
    blink_calc_src _ hact hle]

/-- C3: with the Y centre held fixed, of two activated Y samples the one with
the larger deflection `|sample - centre|` gets a blink period that is less than
or equal to the other's. -/
theorem blink_delay_antitone (s1 s2 : State) (v1 v2 : Nat) (id1 id2 : Int)
    (hc : s1.centro_y = s2.centro_y) (hcy : s1.centro_y < 65536)
    (hv1 : v1 < 65536) (hv2 : v2 < 65536)
    (ha1 : |(v1 : Int) - (s1.centro_y : Int)| > 150)
    (ha2 : |(v2 : Int) - (s1.centro_y : Int)| > 150)
    (hle : |(v1 : Int) - (s1.centro_y : Int)| ≤ |(v2 : Int) - (s1.centro_y : Int)|) :
    (adc_irq_handler s2 v2 JOY_Y_ADC_CHANNEL id2).st.current_blink_delay_ms ≤
      (adc_irq_handler s1 v1 JOY_Y_ADC_CHANNEL id1).st.current_blink_delay_ms := by
  rw [y_active_delay_u16 s1 v1 id1 hv1 hcy ha1,
    y_active_delay_u16 s2 v2 id2 hv2 (hc ▸ hcy) (hc ▸ ha2), ← hc]
  generalize |(v1 : Int) - (s1.centro_y : Int)| = a1 at *
  generalize |(v2 : Int) - (s1.centro_y : Int)| = a2 at *
  omega

/-- Instance of `blink_delay_antitone` at centre 2048: deflections 548 and 952. -/
theorem blink_delay_antitone_witness :
    (adc_irq_handler init_state 3000 JOY_Y_ADC_CHANNEL 1).st.current_blink_delay_ms ≤
      (adc_irq_handler init_state 1500 JOY_Y_ADC_CHANNEL 1).st.current_blink_delay_ms :=
  blink_delay_antitone init_state init_state 1500 3000 1 1 rfl (by decide) (by decide)
    (by decide) (by decide) (by decide) (by decide)

/-- C4: for a 16-bit Y sample whose deflection from the 16-bit centre exceeds
150, the handler leaves in `current_blink_delay_ms` the period of the
specification: `clamp(500 - (effective * 450) / max_effective, 50, 500)` with
`max_effective = max(4095 / 2 - 150, 1)` and
`effective = min(|delta| - 150, max_effective)`, divisions truncating. -/
theorem blink_delay_eq_spec_period (s : State) (sample : Nat) (id : Int)
    (hs : sample < 65536) (hc : s.centro_y < 65536)
    (hact : |(sample : Int) - (s.centro_y : Int)| > 150) :
    (adc_irq_handler s sample JOY_Y_ADC_CHANNEL id).st.current_blink_delay_ms =
      spec_period |(sample : Int) - (s.centro_y : Int)| := by
  rw [y_active_delay_u16 s sample id hs hc hact]
  have hle : |(sample : Int) - (s.centro_y : Int)| ≤ 65535 := by
    rw [abs_le]; omega
  generalize |(sample : Int) - (s.centro_y : Int)| = a at *
  have hm : max (Int.tdiv 4095 2 - 150) 1 = 1897 := by decide
  have hd : Int.tdiv (min (a - 150) 1897 * (500 - 50)) 1897
      = (min (a - 150) 1897 * 450) / 1897 := by
    rw [show ((500 : Int) - 50) = 450 by decide]
    exact Int.tdiv_eq_ediv (by omega) (by omega)
  unfold spec_period clamp
  simp only [hm, hd]
  omega

/-- Instance of `blink_delay_eq_spec_period` at centre 2048 and sample 2500. -/
theorem blink_delay_eq_spec_period_witness :
    (adc_irq_handler init_state 2500 JOY_Y_ADC_CHANNEL 1).st.current_blink_delay_ms =
      spec_period |((2500 : Nat) : Int) - ((init_state.centro_y : Nat) : Int)| :=
  blink_delay_eq_spec_period init_state 2500 1 (by decide) (by decide) (by decide)

/-- C5, as stated, fails: with `centro_y = 2048` the Y sample 3946 does give
`delta = 1898` and `effective = 1748`, but `max_movable_delta` is
`4095 / 2 - 150 = 1897`, not 1898, and the stored period is 86, not 85. -/
theorem scenario_3946_not_85 :
    ¬ (wrap_int (((3946 % 65536 : Nat) : Int) - ((2048 : Nat) : Int)) = 1898 ∧
       (blink_calc DEADZONE_Y ADC_RANGE MIN_BLINK_DELAY_MS MAX_BLINK_DELAY_MS
          1898).effective_delta = 1748 ∧
       (blink_calc DEADZONE_Y ADC_RANGE MIN_BLINK_DELAY_MS MAX_BLINK_DELAY_MS
          1898).max_movable_delta = 1898 ∧
       (adc_irq_handler { init_state with centro_y := 2048 } 3946 JOY_Y_ADC_CHANNEL
          1).st.current_blink_delay_ms = 85) := by
  decide

/-- C5, amended: with `centro_y = 2048`, `DEADZONE_Y = 150` and
`ADC_RANGE = 4095`, dispatching the Y sample 3946 gives `delta = 1898` and
`effective = 1748` against `max_movable_delta = 1897`, and sets the blink period
to `500 - 1748 * 450 / 1897`, which is 86 ms, whatever the rest of the state. -/
theorem scenario_3946_is_86 (s : State) (id : Int) :
    wrap_int (((3946 % 65536 : Nat) : Int) - ((2048 : Nat) : Int)) = 1898 ∧
    (blink_calc DEADZONE_Y ADC_RANGE MIN_BLINK_DELAY_MS MAX_BLINK_DELAY_MS
        1898).effective_delta = 1748 ∧
    (blink_calc DEADZONE_Y ADC_RANGE MIN_BLINK_DELAY_MS MAX_BLINK_DELAY_MS
        1898).max_movable_delta = 1897 ∧
    (adc_irq_handler { s with centro_y := 2048 } 3946 JOY_Y_ADC_CHANNEL
        id).st.current_blink_delay_ms = 500 - (1748 * 450) / 1897 ∧
    (adc_irq_handler { s with centro_y := 2048 } 3946 JOY_Y_ADC_CHANNEL
        id).st.current_blink_delay_ms = 86 := by
  have h := y_active_delay_u16 { s with centro_y := 2048 } 3946 id (by decide)
    (show (2048 : Nat) < 65536 by decide)
    (show |((3946 : Nat) : Int) - ((2048 : Nat) : Int)| > 150 by decide)
  have e : 500 - (min (|((3946 : Nat) : Int) - ((2048 : Nat) : Int)| - 150) 1897 * 450) / 1897
      = (86 : Int) := by decide
  refine ⟨by decide, by decide, by decide, ?_, ?_⟩
  · rw [h]; exact e.trans (by decide)
  · rw [h]; exact e

/-! ### Calibration -/

/-- With 16-bit readings the 32-bit accumulator never wraps during the first
65536 iterations: it holds the exact sum. -/
theorem calib_sum_exact (f : Nat → Nat) (n : Nat) (hn : n ≤ 65536) :
    calib_sum f n = (Finset.range n).sum (fun i => f i % 65536) ∧
      calib_sum f n ≤ n * 65535 := by
  induction n with
  | zero => simp [calib_sum]
  | succ k ih =>
    obtain ⟨h1, h2⟩ := ih (by omega)
    have hb : f k % 65536 < 65536 := Nat.mod_lt _ (by decide)
    have hlt : calib_sum f k + f k % 65536 < 4294967296 := by
      have : k * 65535 ≤ 65535 * 65535 := Nat.mul_le_mul_right _ (by omega)
      omega
    constructor
    · rw [Finset.sum_range_succ, ← h1]
      simp only [calib_sum]
      exact Nat.mod_eq_of_lt hlt
    · simp only [calib_sum]
      rw [Nat.mod_eq_of_lt hlt]
      rw [Nat.succ_mul]
      omega

/-- The sum of readings that are all below `2^16`. -/
theorem sum_mod_u16 (f : Nat → Nat) (n : Nat) (h : ∀ i, i < n → f i < 65536) :
    (Finset.range n).sum (fun i => f i % 65536) = (Finset.range n).sum f := by
  apply Finset.sum_congr rfl
  intro i hi
  exact Nat.mod_eq_of_lt (h i (Finset.mem_range.mp hi))

/-- The centre computed from one axis's readings. -/
theorem calib_center_exact (f : Nat → Nat) (h : ∀ i, i < 50 → f i < 65536) :
    (calib_sum f CALIBRATION_SAMPLES / CALIBRATION_SAMPLES) % 65536
      = (Finset.range 50).sum f / 50 := by
  have h1 := calib_sum_exact f 50 (by decide)
  rw [sum_mod_u16 f 50 h] at h1
  show (calib_sum f 50 / 50) % 65536 = _
  rw [← h1.1]
  have := h1.2
  omega

/-- C6: when the 50 readings of each axis are 16-bit values, `calibrar_joystick`
stores as each axis's centre the floor of the sum of that axis's 50 readings
divided by 50, sets the axis's last sample to that centre, and, when all 50
readings of an axis equal `v`, the centre (and the last sample) is exactly
`v`. -/
theorem calibration_center (s : State) (adc_y adc_x : Nat → Nat)
    (hy : ∀ i, i < 50 → adc_y i < 65536) (hx : ∀ i, i < 50 → adc_x i < 65536) :
    (calibrar_joystick s adc_y adc_x).st.centro_y = (Finset.range 50).sum adc_y / 50 ∧
    (calibrar_joystick s adc_y adc_x).st.centro_x = (Finset.range 50).sum adc_x / 50 ∧
    (calibrar_joystick s adc_y adc_x).st.last_adc_y_value
      = (calibrar_joystick s adc_y adc_x).st.centro_y ∧
    (calibrar_joystick s adc_y adc_x).st.last_adc_x_value
      = (calibrar_joystick s adc_y adc_x).st.centro_x ∧
    (∀ v, (∀ i, i < 50 → adc_y i = v) →
      (calibrar_joystick s adc_y adc_x).st.centro_y = v ∧
      (calibrar_joystick s adc_y adc_x).st.last_adc_y_value = v) ∧
    (∀ v, (∀ i, i < 50 → adc_x i = v) →
      (calibrar_joystick s adc_y adc_x).st.centro_x = v ∧
      (calibrar_joystick s adc_y adc_x).st.last_adc_x_value = v) := by
  have ey : (calibrar_joystick s adc_y adc_x).st.centro_y
      = (Finset.range 50).sum adc_y / 50 := calib_center_exact adc_y hy
  have ex : (calibrar_joystick s adc_y adc_x).st.centro_x
      = (Finset.range 50).sum adc_x / 50 := calib_center_exact adc_x hx
  have ly : (calibrar_joystick s adc_y adc_x).st.last_adc_y_value
      = (calibrar_joystick s adc_y adc_x).st.centro_y := rfl
  have lx : (calibrar_joystick s adc_y adc_x).st.last_adc_x_value
      = (calibrar_joystick s adc_y adc_x).st.centro_x := rfl
  have hconst : ∀ (f : Nat → Nat) (v : Nat), (∀ i, i < 50 → f i = v) →
      (Finset.range 50).sum f / 50 = v := by
    intro f v hf
    have : (Finset.range 50).sum f = (Finset.range 50).sum (fun _ => v) :=
      Finset.sum_congr rfl (fun i hi => hf i (Finset.mem_range.mp hi))
    rw [this, Finset.sum_const, Finset.card_range, smul_eq_mul]
    omega
  refine ⟨ey, ex, ly, lx, ?_, ?_⟩
  · intro v hv
    exact ⟨ey.trans (hconst adc_y v hv), ly.trans (ey.trans (hconst adc_y v hv))⟩
  · intro v hv
    exact ⟨ex.trans (hconst adc_x v hv), lx.trans (ex.trans (hconst adc_x v hv))⟩

/-- Instance of `calibration_center`: fifty readings 2051 on Y, rising readings on X. -/
theorem calibration_center_witness :
    (calibrar_joystick init_state (fun _ => 2051) (fun i => 2000 + i)).st.centro_y = 2051 ∧
    (calibrar_joystick init_state (fun _ => 2051) (fun i => 2000 + i)).st.last_adc_y_value
      = 2051 :=
  (calibration_center init_state (fun _ => 2051) (fun i => 2000 + i)
    (fun _ _ => (by decide : (2051 : Nat) < 65536))
    (fun i hi => (by omega : 2000 + i < 65536))).2.2.2.2.1 2051 (fun _ _ => rfl)

/-! ### Rapid movement -/

/-- The rapid-movement notifications of one dispatch. -/
theorem out_fast_move_eq (s : State) (fifo sel : Nat) (id : Int) :
    (adc_irq_handler s fifo sel id).out.filter is_fast_move =
      if sel % 256 = JOY_Y_ADC_CHANNEL then
        (if c_abs (wrap_int (((fifo % 65536 : Nat) : Int) - (s.last_adc_y_value : Int)))
              > FAST_MOVE_THRESHOLD
          then [Effect.print_fast_y
            (c_abs (wrap_int (((fifo % 65536 : Nat) : Int) - (s.last_adc_y_value : Int))))]
          else [])
      else if sel % 256 = JOY_X_ADC_CHANNEL then
        (if c_abs (wrap_int (((fifo % 65536 : Nat) : Int) - (s.last_adc_x_value : Int)))
              > FAST_MOVE_THRESHOLD
          then [Effect.print_fast_x
            (c_abs (wrap_int (((fifo % 65536 : Nat) : Int) - (s.last_adc_x_value : Int))))]
          else [])
      else [] := by
  by_cases hy : sel % 256 = JOY_Y_ADC_CHANNEL
  · rw [if_pos hy]
    by_cases hact :
        c_abs (wrap_int (((fifo % 65536 : Nat) : Int) - (s.centro_y : Int))) > DEADZONE_Y
    · cases hb : s.led_blinking_active
      · rw [y_start_eq s fifo sel id hy hact hb]
        generalize fifo % 65536 = valor
        by_cases h1 : c_abs (wrap_int ((valor : Int) - (s.last_adc_y_value : Int)))
            > FAST_MOVE_THRESHOLD <;>
        by_cases h2 : s.blinky_timer_alarm_id = 0 <;>
        by_cases h3 : id > 0 <;>
        simp [h1, h2, h3, is_fast_move]
      · rw [y_retarget_eq s fifo sel id hy hact hb]
        generalize fifo % 65536 = valor
        by_cases h1 : c_abs (wrap_int ((valor : Int) - (s.last_adc_y_value : Int)))
            > FAST_MOVE_THRESHOLD <;>
        by_cases h2 : s.blinky_timer_alarm_id = 0 <;>
        by_cases h3 : id > 0 <;>
        simp [h1, h2, h3, is_fast_move]
    · cases hb : s.led_blinking_active
      · rw [y_idle_eq s fifo sel id hy hact hb]
        generalize fifo % 65536 = valor
        by_cases h1 : c_abs (wrap_int ((valor : Int) - (s.last_adc_y_value : Int)))
            > FAST_MOVE_THRESHOLD <;>
        simp [h1, is_fast_move]
      · rw [y_stop_eq s fifo sel id hy hact hb]
        generalize fifo % 65536 = valor
        by_cases h1 : c_abs (wrap_int ((valor : Int) - (s.last_adc_y_value : Int)))
            > FAST_MOVE_THRESHOLD <;>
        by_cases h2 : s.blinky_timer_alarm_id = 0 <;>
        simp [h1, h2, is_fast_move]
  · rw [if_neg hy]
    by_cases hx : sel % 256 = JOY_X_ADC_CHANNEL
    · rw [if_pos hx, x_eq s fifo sel id hx]
      generalize fifo % 65536 = valor
      by_cases h1 : c_abs (wrap_int ((valor : Int) - (s.last_adc_x_value : Int)))
          > FAST_MOVE_THRESHOLD <;>
      by_cases h2 : c_abs (wrap_int ((valor : Int) - (s.centro_x : Int))) > DEADZONE_X <;>
      cases hax : s.acionado_x <;>
      simp [h1, h2, is_fast_move]
    · rw [if_neg hx, other_channel_eq s fifo sel id hy hx]
      rfl

/-- The last sample stored by a Y dispatch. -/
theorem y_last_eq (s : State) (fifo sel : Nat) (id : Int)
    (hsel : sel % 256 = JOY_Y_ADC_CHANNEL) :
    (adc_irq_handler s fifo sel id).st.last_adc_y_value = fifo % 65536 := by
  by_cases hact :
      c_abs (wrap_int (((fifo % 65536 : Nat) : Int) - (s.centro_y : Int))) > DEADZONE_Y
  · cases hb : s.led_blinking_active
    · rw [y_start_eq s fifo sel id hsel hact hb]
    · rw [y_retarget_eq s fifo sel id hsel hact hb]
  · cases hb : s.led_blinking_active
    · rw [y_idle_eq s fifo sel id hsel hact hb]
    · rw [y_stop_eq s fifo sel id hsel hact hb]

/-- A list of calls holds a rapid-movement notification exactly when its
filtered list is not empty. -/
theorem exists_fast_move_iff (l : List Effect) :
    (∃ e, e ∈ l ∧ is_fast_move e = true) ↔ l.filter is_fast_move ≠ [] := by
  constructor
  · rintro ⟨e, he, hp⟩ h
    have : e ∈ l.filter is_fast_move := List.mem_filter.mpr ⟨he, hp⟩
    rw [h] at this
    exact List.not_mem_nil _ this
  · intro h
    obtain ⟨e, he⟩ := List.exists_mem_of_ne_nil _ h
    exact ⟨e, (List.mem_filter.mp he).1, (List.mem_filter.mp he).2⟩

/-- C7: for a 16-bit sample dispatched on the Y (resp. X) channel against a
16-bit stored last sample, the handler emits a rapid-movement notification if
and only if `|sample - last sample of that axis| > 250`, whatever the centre and
the activation state; it emits at most the one notification, carrying that
distance; afterwards the stored last sample of the axis is the new sample. From
a last Y sample of 2048 the Y samples 2048 and 2310 give no notification on the
first dispatch and exactly one on the second. -/
theorem fast_move_notification_iff (s : State) (sample : Nat) (id : Int)
    (hs : sample < 65536)
    (hly : s.last_adc_y_value < 65536) (hlx : s.last_adc_x_value < 65536) :
    ((∃ e, e ∈ (adc_irq_handler s sample JOY_Y_ADC_CHANNEL id).out ∧ is_fast_move e = true)
        ↔ |(sample : Int) - (s.last_adc_y_value : Int)| > 250) ∧
    ((adc_irq_handler s sample JOY_Y_ADC_CHANNEL id).out.filter is_fast_move =
        if |(sample : Int) - (s.last_adc_y_value : Int)| > 250
        then [Effect.print_fast_y |(sample : Int) - (s.last_adc_y_value : Int)|] else []) ∧
    (adc_irq_handler s sample JOY_Y_ADC_CHANNEL id).st.last_adc_y_value = sample ∧
    ((∃ e, e ∈ (adc_irq_handler s sample JOY_X_ADC_CHANNEL id).out ∧ is_fast_move e = true)
        ↔ |(sample : Int) - (s.last_adc_x_value : Int)| > 250) ∧
    ((adc_irq_handler s sample JOY_X_ADC_CHANNEL id).out.filter is_fast_move =
        if |(sample : Int) - (s.last_adc_x_value : Int)| > 250
        then [Effect.print_fast_x |(sample : Int) - (s.last_adc_x_value : Int)|] else []) ∧
    (adc_irq_handler s sample JOY_X_ADC_CHANNEL id).st.last_adc_x_value = sample ∧
    (s.last_adc_y_value = 2048 → ∀ id2 : Int,
      (adc_irq_handler s 2048 JOY_Y_ADC_CHANNEL id).out.filter is_fast_move = [] ∧
      (adc_irq_handler (adc_irq_handler s 2048 JOY_Y_ADC_CHANNEL id).st 2310
          JOY_Y_ADC_CHANNEL id2).out.filter is_fast_move = [Effect.print_fast_y 262] ∧
      (run_out s [Event.adc_irq 2048 JOY_Y_ADC_CHANNEL id,
          Event.adc_irq 2310 JOY_Y_ADC_CHANNEL id2]).filter is_fast_move
        = [Effect.print_fast_y 262]) := by
  have fy : (adc_irq_handler s sample JOY_Y_ADC_CHANNEL id).out.filter is_fast_move =
        if |(sample : Int) - (s.last_adc_y_value : Int)| > 250
        then [Effect.print_fast_y |(sample : Int) - (s.last_adc_y_value : Int)|] else [] := by
    rw [out_fast_move_eq, if_pos sel_y, mod_u16 sample hs, c_abs_sub_u16 _ _ hs hly]
    rfl
  have fx : (adc_irq_handler s sample JOY_X_ADC_CHANNEL id).out.filter is_fast_move =
        if |(sample : Int) - (s.last_adc_x_value : Int)| > 250
        then [Effect.print_fast_x |(sample : Int) - (s.last_adc_x_value : Int)|] else [] := by
    rw [out_fast_move_eq, if_neg (by decide), if_pos sel_x, mod_u16 sample hs,
      c_abs_sub_u16 _ _ hs hlx]
    rfl
  refine ⟨?_, fy, ?_, ?_, fx, ?_, ?_⟩
  · rw [exists_fast_move_iff, fy]
    by_cases h : |(sample : Int) - (s.last_adc_y_value : Int)| > 250 <;> simp [h]
  · rw [y_last_eq s sample _ id sel_y, mod_u16 sample hs]
  · rw [exists_fast_move_iff, fx]
    by_cases h : |(sample : Int) - (s.last_adc_x_value : Int)| > 250 <;> simp [h]
  · rw [x_eq s sample _ id sel_x]
    exact mod_u16 sample hs
  · intro h2048 id2
    have a1 : (adc_irq_handler s 2048 JOY_Y_ADC_CHANNEL id).out.filter is_fast_move = [] := by
      rw [out_fast_move_eq, if_pos sel_y, h2048]
      decide
    have a2 : (adc_irq_handler (adc_irq_handler s 2048 JOY_Y_ADC_CHANNEL id).st 2310
        JOY_Y_ADC_CHANNEL id2).out.filter is_fast_move = [Effect.print_fast_y 262] := by
      rw [out_fast_move_eq, if_pos sel_y, y_last_eq s 2048 _ id sel_y]
      decide
    refine ⟨a1, a2, ?_⟩
    simp only [run_out, step, List.append_nil, List.filter_append]
    rw [a1, a2]
    rfl

/-- Instance of `fast_move_notification_iff`: last Y sample 2048, then the Y samples
2048 and 2310. -/
theorem fast_move_notification_iff_witness :
    (run_out { init_state with last_adc_y_value := 2048 }
        [Event.adc_irq 2048 JOY_Y_ADC_CHANNEL 1,
          Event.adc_irq 2310 JOY_Y_ADC_CHANNEL 2]).filter is_fast_move
      = [Effect.print_fast_y 262] :=
  ((fast_move_notification_iff { init_state with last_adc_y_value := 2048 } 2048 1
      (by decide) (by decide) (by decide)).2.2.2.2.2.2 rfl 2).2.2

/-! ### Starting and stopping the blink -/

/-- C8: when a 16-bit Y sample whose deflection from the 16-bit centre exceeds
150 is dispatched while `led_blinking_active` is false, the handler sets
`led_blinking_active` and `led_is_on_in_blink_cycle`, drives the LED pin high in
that same call (its only `gpio_put`, made before the timer is added), and calls
`add_repeating_timer_ms` exactly once, with the blink period it has just
computed from that sample and stored in `current_blink_delay_ms`. -/
theorem blink_start_on_activation (s : State) (sample : Nat) (id : Int)
    (hs : sample < 65536) (hc : s.centro_y < 65536)
    (hact : |(sample : Int) - (s.centro_y : Int)| > 150)
    (hoff : s.led_blinking_active = false) :
    (adc_irq_handler s sample JOY_Y_ADC_CHANNEL id).st.led_blinking_active = true ∧
    (adc_irq_handler s sample JOY_Y_ADC_CHANNEL id).st.led_is_on_in_blink_cycle = true ∧
    (adc_irq_handler s sample JOY_Y_ADC_CHANNEL id).st.led_azul = true ∧
    (adc_irq_handler s sample JOY_Y_ADC_CHANNEL id).out.filter is_gpio_put
      = [Effect.gpio_put LED_AZUL_GPIO true] ∧
    (adc_irq_handler s sample JOY_Y_ADC_CHANNEL id).out.filter is_add_timer
      = [Effect.add_repeating_timer_ms
          (adc_irq_handler s sample JOY_Y_ADC_CHANNEL id).st.current_blink_delay_ms] ∧
    (adc_irq_handler s sample JOY_Y_ADC_CHANNEL id).st.current_blink_delay_ms
      = (blink_calc DEADZONE_Y ADC_RANGE MIN_BLINK_DELAY_MS MAX_BLINK_DELAY_MS
          |(sample : Int) - (s.centro_y : Int)|).delay ∧
    (∃ pre post, (adc_irq_handler s sample JOY_Y_ADC_CHANNEL id).out
        = pre ++ Effect.gpio_put LED_AZUL_GPIO true :: post ∧
      pre.filter is_add_timer = []) := by
  have habs := c_abs_sub_u16 sample s.centro_y hs hc
  have hact2 : c_abs (wrap_int (((sample % 65536 : Nat) : Int) - (s.centro_y : Int)))
      > DEADZONE_Y := by
    rw [mod_u16 sample hs, habs]; exact hact
  rw [y_start_eq s sample _ id sel_y hact2 hoff, mod_u16 sample hs, habs]
  refine ⟨rfl, rfl, rfl, ?_, ?_, rfl, ?_⟩
  · by_cases h1 : c_abs (wrap_int ((sample : Int) - (s.last_adc_y_value : Int)))
        > FAST_MOVE_THRESHOLD <;>
    by_cases h2 : s.blinky_timer_alarm_id = 0 <;>
    by_cases h3 : id > 0 <;>
    simp [h1, h2, h3, is_gpio_put]
  · by_cases h1 : c_abs (wrap_int ((sample : Int) - (s.last_adc_y_value : Int)))
        > FAST_MOVE_THRESHOLD <;>
    by_cases h2 : s.blinky_timer_alarm_id = 0 <;>
    by_cases h3 : id > 0 <;>
    simp [h1, h2, h3, is_add_timer]
  · refine ⟨_, _, by simp only [List.append_assoc, List.singleton_append]; rfl, ?_⟩
    by_cases h1 : c_abs (wrap_int ((sample : Int) - (s.last_adc_y_value : Int)))
        > FAST_MOVE_THRESHOLD <;>
    simp [h1, is_add_timer]

/-- Instance of `blink_start_on_activation` at the initial state and Y sample 3000. -/
theorem blink_start_on_activation_witness :
    (adc_irq_handler init_state 3000 JOY_Y_ADC_CHANNEL 5).st.led_azul = true ∧
    (adc_irq_handler init_state 3000 JOY_Y_ADC_CHANNEL 5).out.filter is_add_timer
      = [Effect.add_repeating_timer_ms
          (adc_irq_handler init_state 3000 JOY_Y_ADC_CHANNEL 5).st.current_blink_delay_ms] :=
  ⟨(blink_start_on_activation init_state 3000 5 (by decide) (by decide) (by decide) rfl).2.2.1,
   (blink_start_on_activation init_state 3000 5 (by decide) (by decide) (by decide)
      rfl).2.2.2.2.1⟩

/-- An invocation that does not activate the Y axis keeps a stopped blink
stopped and a dark LED dark. -/
theorem step_stays_off (s : State) (e : Event)
    (hq : activates_y s e = false)
    (hb : s.led_blinking_active = false) (hl : s.led_azul = false) :
    (step s e).st.led_blinking_active = false ∧ (step s e).st.led_azul = false := by
  cases e with
  | adc_irq fifo sel id =>
    simp only [step]
    by_cases hy : sel % 256 = JOY_Y_ADC_CHANNEL
    · have hdead : ¬ c_abs (wrap_int (((fifo % 65536 : Nat) : Int) - (s.centro_y : Int)))
          > DEADZONE_Y := by
        intro h
        have : activates_y s (Event.adc_irq fifo sel id) = true := by
          simp only [activates_y, Bool.and_eq_true, decide_eq_true_eq]
          exact ⟨hy, h⟩
        rw [hq] at this
        exact Bool.false_ne_true this
      rw [y_idle_eq s fifo sel id hy hdead hb]
      exact ⟨hb, hl⟩
    · by_cases hx : sel % 256 = JOY_X_ADC_CHANNEL
      · rw [x_eq s fifo sel id hx]; exact ⟨hb, hl⟩
      · rw [other_channel_eq s fifo sel id hy hx]; exact ⟨hb, hl⟩
  | timer_tick =>
    simp [step, blink_led_callback, hb, gpio_put]

/-- Along a sequence without Y activation a stopped blink stays stopped and the
LED stays dark. -/
theorem run_stays_off (es : List Event) (s : State)
    (hq : no_activation s es = true)
    (hb : s.led_blinking_active = false) (hl : s.led_azul = false) :
    (run s es).led_blinking_active = false ∧ (run s es).led_azul = false := by
  induction es generalizing s with
  | nil => exact ⟨hb, hl⟩
  | cons e es ih =>
    simp only [no_activation, Bool.and_eq_true, Bool.not_eq_true'] at hq
    obtain ⟨h1, h2⟩ := step_stays_off s e hq.1 hb hl
    exact ih _ hq.2 h1 h2

/-- C9: when a 16-bit Y sample within 150 of the 16-bit centre is dispatched
while `led_blinking_active` is true, the handler cancels the timer recorded in
`blinky_timer` (the call is made whenever an alarm id is recorded, and that
alarm is no longer armed afterwards), leaves `alarm_id` at 0, clears
`led_blinking_active` and `led_is_on_in_blink_cycle`, drives the LED pin low and
adds no timer; and after any further sequence of invocations that contains no Y
sample outside the deadzone, the LED pin is still low, also right after one more
`blink_led_callback` tick. -/
theorem blink_stop_in_deadzone (s : State) (sample : Nat) (id : Int)
    (hs : sample < 65536) (hc : s.centro_y < 65536)
    (hdead : |(sample : Int) - (s.centro_y : Int)| ≤ 150)
    (hon : s.led_blinking_active = true) :
    (adc_irq_handler s sample JOY_Y_ADC_CHANNEL id).st.blinky_timer_alarm_id = 0 ∧
    (adc_irq_handler s sample JOY_Y_ADC_CHANNEL id).st.led_blinking_active = false ∧
    (adc_irq_handler s sample JOY_Y_ADC_CHANNEL id).st.led_is_on_in_blink_cycle = false ∧
    (adc_irq_handler s sample JOY_Y_ADC_CHANNEL id).st.led_azul = false ∧
    (adc_irq_handler s sample JOY_Y_ADC_CHANNEL id).out.filter is_gpio_put
      = [Effect.gpio_put LED_AZUL_GPIO false] ∧
    (adc_irq_handler s sample JOY_Y_ADC_CHANNEL id).out.filter is_add_timer = [] ∧
    (s.blinky_timer_alarm_id ≠ 0 →
      Effect.cancel_repeating_timer s.blinky_timer_alarm_id
        ∈ (adc_irq_handler s sample JOY_Y_ADC_CHANNEL id).out ∧
      s.blinky_timer_alarm_id
        ∉ (adc_irq_handler s sample JOY_Y_ADC_CHANNEL id).st.live_timers) ∧
    ((∀ t, t ∈ s.live_timers → t = s.blinky_timer_alarm_id ∧ t ≠ 0) →
      (adc_irq_handler s sample JOY_Y_ADC_CHANNEL id).st.live_timers = []) ∧
    (∀ es : List Event,
      no_activation (adc_irq_handler s sample JOY_Y_ADC_CHANNEL id).st es = true →
      (run (adc_irq_handler s sample JOY_Y_ADC_CHANNEL id).st es).led_azul = false ∧
      (blink_led_callback
        (run (adc_irq_handler s sample JOY_Y_ADC_CHANNEL id).st es)).1.st.led_azul = false) := by
  have habs := c_abs_sub_u16 sample s.centro_y hs hc
  have hdead2 : ¬ c_abs (wrap_int (((sample % 65536 : Nat) : Int) - (s.centro_y : Int)))
      > DEADZONE_Y := by
    rw [mod_u16 sample hs, habs]; exact not_lt.mpr hdead
  have hb : (adc_irq_handler s sample JOY_Y_ADC_CHANNEL id).st.led_blinking_active = false := by
    rw [y_stop_eq s sample _ id sel_y hdead2 hon]
  have hl : (adc_irq_handler s sample JOY_Y_ADC_CHANNEL id).st.led_azul = false := by
    rw [y_stop_eq s sample _ id sel_y hdead2 hon]
  refine ⟨?_, hb, ?_, hl, ?_, ?_, ?_, ?_, ?_⟩
  · rw [y_stop_eq s sample _ id sel_y hdead2 hon]
  · rw [y_stop_eq s sample _ id sel_y hdead2 hon]
  · rw [y_stop_eq s sample _ id sel_y hdead2 hon]
    generalize sample % 65536 = valor
    by_cases h1 : c_abs (wrap_int ((valor : Int) - (s.last_adc_y_value : Int)))
        > FAST_MOVE_THRESHOLD <;>
    by_cases h2 : s.blinky_timer_alarm_id = 0 <;>
    simp [h1, h2, is_gpio_put]
  · rw [y_stop_eq s sample _ id sel_y hdead2 hon]
    generalize sample % 65536 = valor
    by_cases h1 : c_abs (wrap_int ((valor : Int) - (s.last_adc_y_value : Int)))
        > FAST_MOVE_THRESHOLD <;>
    by_cases h2 : s.blinky_timer_alarm_id = 0 <;>
    simp [h1, h2, is_add_timer]
  · intro hne
    rw [y_stop_eq s sample _ id sel_y hdead2 hon]
    constructor
    · simp [hne]
    · simp [hne, List.mem_filter]
  · intro hall
    rw [y_stop_eq s sample _ id sel_y hdead2 hon]
    by_cases h2 : s.blinky_timer_alarm_id = 0
    · have : s.live_timers = [] := by
        apply List.eq_nil_iff_forall_not_mem.mpr
        intro t ht
        exact (hall t ht).2 ((hall t ht).1.trans h2)
      simp [h2, this]
    · simp only [ne_eq, h2, not_false_eq_true, if_true]
      apply List.eq_nil_iff_forall_not_mem.mpr
      intro t ht
      have h3 := List.mem_filter.mp ht
      have h4 : t ≠ s.blinky_timer_alarm_id := by simpa using h3.2
      exact h4 (hall t h3.1).1
  · intro es hq
    have h := run_stays_off es _ hq hb hl
    refine ⟨h.2, ?_⟩
    simp [blink_led_callback, h.1, gpio_put]

/-- Instance of `blink_stop_in_deadzone`: blinking is started by the Y sample 3000 and
stopped by the Y sample 2048, the centre itself. -/
theorem blink_stop_in_deadzone_witness :
    (adc_irq_handler (adc_irq_handler init_state 3000 JOY_Y_ADC_CHANNEL 5).st 2048
        JOY_Y_ADC_CHANNEL 6).st.blinky_timer_alarm_id = 0 ∧
    (adc_irq_handler (adc_irq_handler init_state 3000 JOY_Y_ADC_CHANNEL 5).st 2048
        JOY_Y_ADC_CHANNEL 6).st.led_azul = false ∧
    (adc_irq_handler (adc_irq_handler init_state 3000 JOY_Y_ADC_CHANNEL 5).st 2048
        JOY_Y_ADC_CHANNEL 6).st.live_timers = [] :=
  ⟨(blink_stop_in_deadzone (adc_irq_handler init_state 3000 JOY_Y_ADC_CHANNEL 5).st 2048 6
      (by decide) (by decide) (by decide) (by decide)).1,
   (blink_stop_in_deadzone (adc_irq_handler init_state 3000 JOY_Y_ADC_CHANNEL 5).st 2048 6
      (by decide) (by decide) (by decide) (by decide)).2.2.2.1,
   (blink_stop_in_deadzone (adc_irq_handler init_state 3000 JOY_Y_ADC_CHANNEL 5).st 2048 6
      (by decide) (by decide) (by decide) (by decide)).2.2.2.2.2.2.2.1 (by decide)⟩

/-! ### Blinking tracks the Y activation flag -/

/-- Every invocation keeps `led_blinking_active` equal to `acionado_y`. -/
theorem step_blinking_eq_flag (s : State) (e : Event)
    (h : s.led_blinking_active = s.acionado_y) :
    (step s e).st.led_blinking_active = (step s e).st.acionado_y := by
  cases e with
  | adc_irq fifo sel id =>
    simp only [step]
    by_cases hy : sel % 256 = JOY_Y_ADC_CHANNEL
    · rw [y_blinking_eq s fifo sel id hy, y_flag_eq s fifo sel id hy]
    · by_cases hx : sel % 256 = JOY_X_ADC_CHANNEL
      · rw [x_eq s fifo sel id hx]; exact h
      · rw [other_channel_eq s fifo sel id hy hx]; exact h
  | timer_tick =>
    simp only [step]
    rw [(tick_frame s).2.1, (tick_frame s).2.2.1]; exact h

/-- The two flags stay equal along any sequence of invocations. -/
theorem run_blinking_eq_flag (es : List Event) (s : State)
    (h : s.led_blinking_active = s.acionado_y) :
    (run s es).led_blinking_active = (run s es).acionado_y := by
  induction es generalizing s with
  | nil => exact h
  | cons e es ih => exact ih _ (step_blinking_eq_flag s e h)

/-- C10: starting from any state in which `led_blinking_active` and
`acionado_y` are both false (as at program start), after any sequence of
`adc_irq_handler` and `blink_led_callback` invocations `led_blinking_active` is
false if and only if `acionado_y` is false. -/
theorem blinking_inactive_iff_not_acionado (s0 : State) (es : List Event)
    (hb : s0.led_blinking_active = false) (ha : s0.acionado_y = false) :
    (run s0 es).led_blinking_active = false ↔ (run s0 es).acionado_y = false := by
  rw [run_blinking_eq_flag es s0 (hb.trans ha.symm)]

/-- Instance of `blinking_inactive_iff_not_acionado` at the initial state, for a run
in which the timer cannot be added. -/
theorem blinking_inactive_iff_not_acionado_witness :
    (run init_state [Event.adc_irq 3000 0 (-1), Event.timer_tick, Event.adc_irq 2048 1 3,
        Event.adc_irq 2050 0 4]).led_blinking_active = false ↔
    (run init_state [Event.adc_irq 3000 0 (-1), Event.timer_tick, Event.adc_irq 2048 1 3,
        Event.adc_irq 2050 0 4]).acionado_y = false :=
  blinking_inactive_iff_not_acionado init_state
    [Event.adc_irq 3000 0 (-1), Event.timer_tick, Event.adc_irq 2048 1 3,
      Event.adc_irq 2050 0 4] rfl rfl

/-! ## Closed form of the timer callback and further consequences -/

/-- The timer callback in closed form. -/
theorem tick_eq (s : State) :
    blink_led_callback s =
      ({ st := { s with
                   led_is_on_in_blink_cycle :=
                     if s.led_blinking_active then !s.led_is_on_in_blink_cycle
                     else s.led_is_on_in_blink_cycle
                   led_azul :=
                     if s.led_blinking_active then !s.led_is_on_in_blink_cycle else false },
         out := [Effect.gpio_put LED_AZUL_GPIO
                   (if s.led_blinking_active then !s.led_is_on_in_blink_cycle else false)] },
       true) := by
  obtain ⟨cy, cx, dl, act, al, lon, ly, lx, ay, ax, led, live⟩ := s
  cases act <;> cases lon <;> rfl

/-- The `add_repeating_timer_ms` calls of one dispatch: one, carrying the delay
just computed, for a Y sample outside the deadzone, none otherwise. -/
theorem out_add_timer_eq (s : State) (fifo sel : Nat) (id : Int) :
    (adc_irq_handler s fifo sel id).out.filter is_add_timer =
      if sel % 256 = JOY_Y_ADC_CHANNEL ∧
          c_abs (wrap_int (((fifo % 65536 : Nat) : Int) - (s.centro_y : Int))) > DEADZONE_Y
      then [Effect.add_repeating_timer_ms
        (blink_calc DEADZONE_Y ADC_RANGE MIN_BLINK_DELAY_MS MAX_BLINK_DELAY_MS
          (c_abs (wrap_int (((fifo % 65536 : Nat) : Int) - (s.centro_y : Int))))).delay]
      else [] := by
  by_cases hy : sel % 256 = JOY_Y_ADC_CHANNEL
  · by_cases hact :
        c_abs (wrap_int (((fifo % 65536 : Nat) : Int) - (s.centro_y : Int))) > DEADZONE_Y
    · rw [if_pos ⟨hy, hact⟩]
      cases hb : s.led_blinking_active
      · rw [y_start_eq s fifo sel id hy hact hb]
        generalize fifo % 65536 = valor
        by_cases h1 : c_abs (wrap_int ((valor : Int) - (s.last_adc_y_value : Int)))
            > FAST_MOVE_THRESHOLD <;>
        by_cases h2 : s.blinky_timer_alarm_id = 0 <;>
        by_cases h3 : id > 0 <;>
        simp [h1, h2, h3, is_add_timer]
      · rw [y_retarget_eq s fifo sel id hy hact hb]
        generalize fifo % 65536 = valor
        by_cases h1 : c_abs (wrap_int ((valor : Int) - (s.last_adc_y_value : Int)))
            > FAST_MOVE_THRESHOLD <;>
        by_cases h2 : s.blinky_timer_alarm_id = 0 <;>
        by_cases h3 : id > 0 <;>
        simp [h1, h2, h3, is_add_timer]
    · rw [if_neg (fun h => hact h.2)]
      cases hb : s.led_blinking_active
      · rw [y_idle_eq s fifo sel id hy hact hb]
        generalize fifo % 65536 = valor
        by_cases h1 : c_abs (wrap_int ((valor : Int) - (s.last_adc_y_value : Int)))
            > FAST_MOVE_THRESHOLD <;>
        simp [h1, is_add_timer]
      · rw [y_stop_eq s fifo sel id hy hact hb]
        generalize fifo % 65536 = valor
        by_cases h1 : c_abs (wrap_int ((valor : Int) - (s.last_adc_y_value : Int)))
            > FAST_MOVE_THRESHOLD <;>
        by_cases h2 : s.blinky_timer_alarm_id = 0 <;>
        simp [h1, h2, is_add_timer]
  · rw [if_neg (fun h => hy h.1)]
    by_cases hx : sel % 256 = JOY_X_ADC_CHANNEL
    · rw [x_eq s fifo sel id hx]
      generalize fifo % 65536 = valor
      by_cases h1 : c_abs (wrap_int ((valor : Int) - (s.last_adc_x_value : Int)))
          > FAST_MOVE_THRESHOLD <;>
      by_cases h2 : c_abs (wrap_int ((valor : Int) - (s.centro_x : Int))) > DEADZONE_X <;>
      cases hax : s.acionado_x <;>
      simp [h1, h2, is_add_timer]
    · rw [other_channel_eq s fifo sel id hy hx]
      rfl

/-- Under `timers_tracked`, the handler's guarded cancel leaves no timer armed. -/
theorem tracked_cancel_nil (s : State) (h : timers_tracked s) :
    (if s.blinky_timer_alarm_id ≠ 0 then
        s.live_timers.filter (fun t => decide (t ≠ s.blinky_timer_alarm_id))
      else s.live_timers) = [] := by
  unfold timers_tracked at h
  by_cases hp : s.blinky_timer_alarm_id > 0
  · have hne : s.blinky_timer_alarm_id ≠ 0 := by omega
    rw [if_pos hne, h, if_pos hp]
    simp
  · rw [if_neg hp] at h
    rw [h]
    split <;> rfl

/-- Every invocation keeps `timers_tracked`. -/
theorem step_timers_tracked (s : State) (e : Event) (h : timers_tracked s) :
    timers_tracked (step s e).st := by
  have hc := tracked_cancel_nil s h
  cases e with
  | adc_irq fifo sel id =>
    simp only [step]
    by_cases hy : sel % 256 = JOY_Y_ADC_CHANNEL
    · by_cases hact :
          c_abs (wrap_int (((fifo % 65536 : Nat) : Int) - (s.centro_y : Int))) > DEADZONE_Y
      · cases hb : s.led_blinking_active
        · rw [y_start_eq s fifo sel id hy hact hb]
          unfold timers_tracked
          simp only [hc, List.append_nil]
        · rw [y_retarget_eq s fifo sel id hy hact hb]
          unfold timers_tracked
          simp only [hc, List.append_nil]
      · cases hb : s.led_blinking_active
        · rw [y_idle_eq s fifo sel id hy hact hb]; exact h
        · rw [y_stop_eq s fifo sel id hy hact hb]
          unfold timers_tracked
          simp only [hc]
          rfl
    · by_cases hx : sel % 256 = JOY_X_ADC_CHANNEL
      · rw [x_eq s fifo sel id hx]; exact h
      · rw [other_channel_eq s fifo sel id hy hx]; exact h
  | timer_tick =>
    simp only [step]
    rw [tick_eq]
    exact h

/-- The invariant `timers_tracked` holds along any sequence of invocations. -/
theorem run_timers_tracked (es : List Event) (s : State) (h : timers_tracked s) :
    timers_tracked (run s es) := by
  induction es generalizing s with
  | nil => exact h
  | cons e es ih => exact ih _ (step_timers_tracked s e h)

/-! ### One timer at most -/

/-- C11: with the timer service modelled as the set `live_timers`, starting
from any state with no timer armed and `alarm_id = 0`, after any sequence of
dispatches and ticks at most one periodic timer is armed, and it is the one
recorded in `blinky_timer`; and whenever a dispatch from such a state calls
`add_repeating_timer_ms` while a timer is still armed, that call comes right
after the `cancel_repeating_timer` call for that very timer. -/
theorem at_most_one_timer_live (s0 : State) (es : List Event)
    (h0 : s0.live_timers = []) (ha : s0.blinky_timer_alarm_id = 0) :
    (run s0 es).live_timers.length ≤ 1 ∧
    timers_tracked (run s0 es) ∧
    (∀ (fifo sel : Nat) (id : Int),
      (adc_irq_handler (run s0 es) fifo sel id).out.filter is_add_timer ≠ [] →
      (run s0 es).live_timers ≠ [] →
      (run s0 es).live_timers = [(run s0 es).blinky_timer_alarm_id] ∧
      ∃ pre post d, (adc_irq_handler (run s0 es) fifo sel id).out =
        pre ++ Effect.cancel_repeating_timer (run s0 es).blinky_timer_alarm_id
          :: Effect.add_repeating_timer_ms d :: post) := by
  have hinit : timers_tracked s0 := by
    unfold timers_tracked; rw [h0, ha]; rfl
  have ht := run_timers_tracked es s0 hinit
  generalize run s0 es = s at ht ⊢
  have hlive : s.live_timers ≠ [] →
      s.blinky_timer_alarm_id ≠ 0 ∧ s.live_timers = [s.blinky_timer_alarm_id] := by
    intro hne
    unfold timers_tracked at ht
    by_cases hp : s.blinky_timer_alarm_id > 0
    · rw [if_pos hp] at ht
      exact ⟨by omega, ht⟩
    · rw [if_neg hp] at ht
      exact absurd ht hne
  refine ⟨?_, ht, ?_⟩
  · unfold timers_tracked at ht
    rw [ht]
    split <;> simp
  · intro fifo sel id hadd hne
    obtain ⟨hal, hl⟩ := hlive hne
    refine ⟨hl, ?_⟩
    rw [out_add_timer_eq] at hadd
    by_cases hcond : sel % 256 = JOY_Y_ADC_CHANNEL ∧
        c_abs (wrap_int (((fifo % 65536 : Nat) : Int) - (s.centro_y : Int))) > DEADZONE_Y
    · obtain ⟨hy, hact⟩ := hcond
      cases hb : s.led_blinking_active
      · rw [y_start_eq s fifo sel id hy hact hb]
        refine ⟨(if c_abs (wrap_int (((fifo % 65536 : Nat) : Int) - (s.last_adc_y_value : Int)))
                > FAST_MOVE_THRESHOLD
            then [Effect.print_fast_y
              (c_abs (wrap_int (((fifo % 65536 : Nat) : Int) - (s.last_adc_y_value : Int))))]
            else []) ++ [Effect.gpio_put LED_AZUL_GPIO true],
          (if id > 0 then [] else [Effect.print_err_add]),
          (blink_calc DEADZONE_Y ADC_RANGE MIN_BLINK_DELAY_MS MAX_BLINK_DELAY_MS
            (c_abs (wrap_int (((fifo % 65536 : Nat) : Int) - (s.centro_y : Int))))).delay, ?_⟩
        simp only [if_pos hal, List.append_assoc, List.singleton_append, List.cons_append,
          List.nil_append]
      · rw [y_retarget_eq s fifo sel id hy hact hb]
        refine ⟨(if c_abs (wrap_int (((fifo % 65536 : Nat) : Int) - (s.last_adc_y_value : Int)))
                > FAST_MOVE_THRESHOLD
            then [Effect.print_fast_y
              (c_abs (wrap_int (((fifo % 65536 : Nat) : Int) - (s.last_adc_y_value : Int))))]
            else []),
          (if id > 0 then [] else [Effect.print_err_readd]),
          (blink_calc DEADZONE_Y ADC_RANGE MIN_BLINK_DELAY_MS MAX_BLINK_DELAY_MS
            (c_abs (wrap_int (((fifo % 65536 : Nat) : Int) - (s.centro_y : Int))))).delay, ?_⟩
        simp only [if_pos hal, List.append_assoc, List.singleton_append, List.cons_append,
          List.nil_append]
    · rw [if_neg hcond] at hadd
      exact absurd rfl hadd

/-- Instance of `at_most_one_timer_live` at the initial state: blinking is
started, retargeted with a failing add, retargeted again and ticked. -/
theorem at_most_one_timer_live_witness :
    (run init_state [Event.adc_irq 3000 0 7, Event.adc_irq 3100 0 (-1),
        Event.adc_irq 3200 0 9, Event.timer_tick]).live_timers.length ≤ 1 :=
  (at_most_one_timer_live init_state
    [Event.adc_irq 3000 0 7, Event.adc_irq 3100 0 (-1), Event.adc_irq 3200 0 9,
      Event.timer_tick] rfl rfl).1

/-! ### Unknown channels -/

/-- C12: for every raw sample and every channel identifier (as narrowed to
`uint8_t`) other than 0 and 1, `adc_irq_handler` returns the state it was given,
all fields alike, and makes no call to its environment. -/
theorem unknown_channel_ignored (s : State) (fifo sel : Nat) (id : Int)
    (hy : sel % 256 ≠ JOY_Y_ADC_CHANNEL) (hx : sel % 256 ≠ JOY_X_ADC_CHANNEL) :
    (adc_irq_handler s fifo sel id).st = s ∧ (adc_irq_handler s fifo sel id).out = [] := by
  rw [other_channel_eq s fifo sel id hy hx]
  exact ⟨rfl, rfl⟩

/-- Instance of `unknown_channel_ignored`: a sample arriving on channel 4 while
blinking is engaged. -/
theorem unknown_channel_ignored_witness :
    (adc_irq_handler (adc_irq_handler init_state 3000 0 7).st 4000 4 8).st
        = (adc_irq_handler init_state 3000 0 7).st ∧
    (adc_irq_handler (adc_irq_handler init_state 3000 0 7).st 4000 4 8).out = [] :=
  unknown_channel_ignored (adc_irq_handler init_state 3000 0 7).st 4000 4 8
    (by decide) (by decide)

/-! ### Timer failure and retargeting -/

/-- No dispatch changes the calibrated centres. -/
theorem handler_centres (s : State) (fifo sel : Nat) (id : Int) :
    (adc_irq_handler s fifo sel id).st.centro_y = s.centro_y ∧
    (adc_irq_handler s fifo sel id).st.centro_x = s.centro_x := by
  by_cases hy : sel % 256 = JOY_Y_ADC_CHANNEL
  · by_cases hact :
        c_abs (wrap_int (((fifo % 65536 : Nat) : Int) - (s.centro_y : Int))) > DEADZONE_Y
    · cases hb : s.led_blinking_active
      · rw [y_start_eq s fifo sel id hy hact hb]; exact ⟨rfl, rfl⟩
      · rw [y_retarget_eq s fifo sel id hy hact hb]; exact ⟨rfl, rfl⟩
    · cases hb : s.led_blinking_active
      · rw [y_idle_eq s fifo sel id hy hact hb]; exact ⟨rfl, rfl⟩
      · rw [y_stop_eq s fifo sel id hy hact hb]; exact ⟨rfl, rfl⟩
  · by_cases hx : sel % 256 = JOY_X_ADC_CHANNEL
    · rw [x_eq s fifo sel id hx]; exact ⟨rfl, rfl⟩
    · rw [other_channel_eq s fifo sel id hy hx]; exact ⟨rfl, rfl⟩

/-- The deadzone test of a 16-bit Y sample against a 16-bit centre, as the
handler evaluates it. -/
theorem y_activated_u16 (s : State) (sample : Nat)
    (hs : sample < 65536) (hc : s.centro_y < 65536)
    (hact : |(sample : Int) - (s.centro_y : Int)| > 150) :
    c_abs (wrap_int (((sample % 65536 : Nat) : Int) - (s.centro_y : Int))) > DEADZONE_Y := by
  rw [mod_u16 sample hs, c_abs_sub_u16 sample s.centro_y hs hc]; exact hact

/-- C13: when `add_repeating_timer_ms` fails (hands out no positive alarm id)
during the dispatch of an activated 16-bit Y sample, the handler still returns;
it logs the error once (the "add" message when blinking was off, the "re-add"
message when it was on), makes that one `add_repeating_timer_ms` call only,
leaves the LED pin, `led_blinking_active`, `led_is_on_in_blink_cycle` and the
`gpio_put` calls exactly as in the run where the add succeeds, and the dispatch
of the next activated Y sample calls `add_repeating_timer_ms` once more. -/
theorem timer_failure_not_fatal (s : State) (sample : Nat) (id : Int)
    (hs : sample < 65536) (hc : s.centro_y < 65536)
    (hact : |(sample : Int) - (s.centro_y : Int)| > 150)
    (hfail : id ≤ 0) :
    (adc_irq_handler s sample JOY_Y_ADC_CHANNEL id).out.filter is_timer_error
      = [if s.led_blinking_active then Effect.print_err_readd else Effect.print_err_add] ∧
    ((adc_irq_handler s sample JOY_Y_ADC_CHANNEL id).out.filter is_add_timer).length = 1 ∧
    (adc_irq_handler s sample JOY_Y_ADC_CHANNEL id).st.led_blinking_active = true ∧
    (∀ ok : Int, ok > 0 →
      (adc_irq_handler s sample JOY_Y_ADC_CHANNEL id).st.led_azul
        = (adc_irq_handler s sample JOY_Y_ADC_CHANNEL ok).st.led_azul ∧
      (adc_irq_handler s sample JOY_Y_ADC_CHANNEL id).st.led_blinking_active
        = (adc_irq_handler s sample JOY_Y_ADC_CHANNEL ok).st.led_blinking_active ∧
      (adc_irq_handler s sample JOY_Y_ADC_CHANNEL id).st.led_is_on_in_blink_cycle
        = (adc_irq_handler s sample JOY_Y_ADC_CHANNEL ok).st.led_is_on_in_blink_cycle ∧
      (adc_irq_handler s sample JOY_Y_ADC_CHANNEL id).out.filter is_gpio_put
        = (adc_irq_handler s sample JOY_Y_ADC_CHANNEL ok).out.filter is_gpio_put ∧
      (adc_irq_handler s sample JOY_Y_ADC_CHANNEL ok).out.filter is_timer_error = []) ∧
    (∀ (sample2 : Nat) (id2 : Int), sample2 < 65536 →
      |(sample2 : Int) - (s.centro_y : Int)| > 150 →
      ((adc_irq_handler (adc_irq_handler s sample JOY_Y_ADC_CHANNEL id).st sample2
          JOY_Y_ADC_CHANNEL id2).out.filter is_add_timer).length = 1) := by
  have hact2 := y_activated_u16 s sample hs hc hact
  have hnot : ¬ id > 0 := by omega
  have hadd1 : ((adc_irq_handler s sample JOY_Y_ADC_CHANNEL id).out.filter is_add_timer).length
      = 1 := by
    rw [out_add_timer_eq, if_pos ⟨sel_y, hact2⟩]; rfl
  have hnext : ∀ (sample2 : Nat) (id2 : Int), sample2 < 65536 →
      |(sample2 : Int) - (s.centro_y : Int)| > 150 →
      ((adc_irq_handler (adc_irq_handler s sample JOY_Y_ADC_CHANNEL id).st sample2
          JOY_Y_ADC_CHANNEL id2).out.filter is_add_timer).length = 1 := by
    intro sample2 id2 hs2 ha2
    have hcy := (handler_centres s sample JOY_Y_ADC_CHANNEL id).1
    have h2 := y_activated_u16 (adc_irq_handler s sample JOY_Y_ADC_CHANNEL id).st sample2 hs2
      (by rw [hcy]; exact hc) (by rw [hcy]; exact ha2)
    rw [out_add_timer_eq, if_pos ⟨sel_y, h2⟩]; rfl
  refine ⟨?_, hadd1, ?_, ?_, hnext⟩
  · cases hb : s.led_blinking_active
    · rw [y_start_eq s sample _ id sel_y hact2 hb]
      generalize sample % 65536 = valor
      by_cases h1 : c_abs (wrap_int ((valor : Int) - (s.last_adc_y_value : Int)))
          > FAST_MOVE_THRESHOLD <;>
      by_cases h2 : s.blinky_timer_alarm_id = 0 <;>
      simp [h1, h2, hnot, is_timer_error]
    · rw [y_retarget_eq s sample _ id sel_y hact2 hb]
      generalize sample % 65536 = valor
      by_cases h1 : c_abs (wrap_int ((valor : Int) - (s.last_adc_y_value : Int)))
          > FAST_MOVE_THRESHOLD <;>
      by_cases h2 : s.blinky_timer_alarm_id = 0 <;>
      simp [h1, h2, hnot, is_timer_error]
  · rw [y_blinking_eq s sample _ id sel_y]
    exact decide_eq_true hact2
  · intro ok hok
    cases hb : s.led_blinking_active
    · rw [y_start_eq s sample _ id sel_y hact2 hb, y_start_eq s sample _ ok sel_y hact2 hb]
      refine ⟨rfl, rfl, rfl, ?_, ?_⟩
      · generalize sample % 65536 = valor
        by_cases h1 : c_abs (wrap_int ((valor : Int) - (s.last_adc_y_value : Int)))
            > FAST_MOVE_THRESHOLD <;>
        by_cases h2 : s.blinky_timer_alarm_id = 0 <;>
        simp [h1, h2, hnot, hok, is_gpio_put]
      · generalize sample % 65536 = valor
        by_cases h1 : c_abs (wrap_int ((valor : Int) - (s.last_adc_y_value : Int)))
            > FAST_MOVE_THRESHOLD <;>
        by_cases h2 : s.blinky_timer_alarm_id = 0 <;>
        simp [h1, h2, hok, is_timer_error]
    · rw [y_retarget_eq s sample _ id sel_y hact2 hb,
        y_retarget_eq s sample _ ok sel_y hact2 hb]
      refine ⟨rfl, rfl, rfl, ?_, ?_⟩
      · generalize sample % 65536 = valor
        by_cases h1 : c_abs (wrap_int ((valor : Int) - (s.last_adc_y_value : Int)))
            > FAST_MOVE_THRESHOLD <;>
        by_cases h2 : s.blinky_timer_alarm_id = 0 <;>
        simp [h1, h2, hnot, hok, is_gpio_put]
      · generalize sample % 65536 = valor
        by_cases h1 : c_abs (wrap_int ((valor : Int) - (s.last_adc_y_value : Int)))
            > FAST_MOVE_THRESHOLD <;>
        by_cases h2 : s.blinky_timer_alarm_id = 0 <;>
        simp [h1, h2, hok, is_timer_error]

/-- Instance of `timer_failure_not_fatal` at the initial state: the add for the Y
sample 3000 fails with id -1, and the next sample 3100 adds again. -/
theorem timer_failure_not_fatal_witness :
    (adc_irq_handler init_state 3000 JOY_Y_ADC_CHANNEL (-1)).out.filter is_timer_error
      = [Effect.print_err_add] ∧
    ((adc_irq_handler (adc_irq_handler init_state 3000 JOY_Y_ADC_CHANNEL (-1)).st 3100
        JOY_Y_ADC_CHANNEL 2).out.filter is_add_timer).length = 1 :=
  ⟨(timer_failure_not_fatal init_state 3000 (-1) (by decide) (by decide) (by decide)
      (by decide)).1,
   (timer_failure_not_fatal init_state 3000 (-1) (by decide) (by decide) (by decide)
      (by decide)).2.2.2.2 3100 2 (by decide) (by decide)⟩

/-- C14: when an activated 16-bit Y sample is dispatched while
`led_blinking_active` is already true, the handler cancels the timer recorded in
`blinky_timer` (whenever an alarm id is recorded) and right after adds the timer
again with the period newly computed from the sample; it makes no `gpio_put`
call and leaves `led_is_on_in_blink_cycle` and the LED pin as they were. -/
theorem retarget_keeps_phase (s : State) (sample : Nat) (id : Int)
    (hs : sample < 65536) (hc : s.centro_y < 65536)
    (hact : |(sample : Int) - (s.centro_y : Int)| > 150)
    (hon : s.led_blinking_active = true) :
    (adc_irq_handler s sample JOY_Y_ADC_CHANNEL id).st.led_is_on_in_blink_cycle
      = s.led_is_on_in_blink_cycle ∧
    (adc_irq_handler s sample JOY_Y_ADC_CHANNEL id).st.led_azul = s.led_azul ∧
    (adc_irq_handler s sample JOY_Y_ADC_CHANNEL id).st.led_blinking_active = true ∧
    (adc_irq_handler s sample JOY_Y_ADC_CHANNEL id).out.filter is_gpio_put = [] ∧
    (adc_irq_handler s sample JOY_Y_ADC_CHANNEL id).out.filter is_add_timer
      = [Effect.add_repeating_timer_ms
          (adc_irq_handler s sample JOY_Y_ADC_CHANNEL id).st.current_blink_delay_ms] ∧
    (adc_irq_handler s sample JOY_Y_ADC_CHANNEL id).st.current_blink_delay_ms
      = (blink_calc DEADZONE_Y ADC_RANGE MIN_BLINK_DELAY_MS MAX_BLINK_DELAY_MS
          |(sample : Int) - (s.centro_y : Int)|).delay ∧
    (adc_irq_handler s sample JOY_Y_ADC_CHANNEL id).st.blinky_timer_alarm_id = id ∧
    (s.blinky_timer_alarm_id ≠ 0 →
      ∃ pre post, (adc_irq_handler s sample JOY_Y_ADC_CHANNEL id).out
        = pre ++ Effect.cancel_repeating_timer s.blinky_timer_alarm_id
            :: Effect.add_repeating_timer_ms
                (adc_irq_handler s sample JOY_Y_ADC_CHANNEL id).st.current_blink_delay_ms
            :: post) ∧
    (timers_tracked s →
      (adc_irq_handler s sample JOY_Y_ADC_CHANNEL id).st.live_timers
        = if id > 0 then [id] else []) := by
  have habs := c_abs_sub_u16 sample s.centro_y hs hc
  have hact2 := y_activated_u16 s sample hs hc hact
  rw [y_retarget_eq s sample _ id sel_y hact2 hon, mod_u16 sample hs, habs]
  refine ⟨rfl, rfl, hon, ?_, ?_, rfl, rfl, ?_, ?_⟩
  · by_cases h1 : c_abs (wrap_int ((sample : Int) - (s.last_adc_y_value : Int)))
        > FAST_MOVE_THRESHOLD <;>
    by_cases h2 : s.blinky_timer_alarm_id = 0 <;>
    by_cases h3 : id > 0 <;>
    simp [h1, h2, h3, is_gpio_put]
  · by_cases h1 : c_abs (wrap_int ((sample : Int) - (s.last_adc_y_value : Int)))
        > FAST_MOVE_THRESHOLD <;>
    by_cases h2 : s.blinky_timer_alarm_id = 0 <;>
    by_cases h3 : id > 0 <;>
    simp [h1, h2, h3, is_add_timer]
  · intro hal
    refine ⟨(if c_abs (wrap_int ((sample : Int) - (s.last_adc_y_value : Int)))
                > FAST_MOVE_THRESHOLD
            then [Effect.print_fast_y
              (c_abs (wrap_int ((sample : Int) - (s.last_adc_y_value : Int))))]
            else []),
          (if id > 0 then [] else [Effect.print_err_readd]), ?_⟩
    simp only [if_pos hal, List.append_assoc, List.singleton_append, List.cons_append,
      List.nil_append]
  · intro ht
    have hcn := tracked_cancel_nil s ht
    simp only [hcn, List.append_nil]

/-- Instance of `retarget_keeps_phase`: blinking started by the Y sample 3000 is
retargeted by the Y sample 3500. -/
theorem retarget_keeps_phase_witness :
    (adc_irq_handler (adc_irq_handler init_state 3000 JOY_Y_ADC_CHANNEL 7).st 3500
        JOY_Y_ADC_CHANNEL 8).st.led_azul = true ∧
    (adc_irq_handler (adc_irq_handler init_state 3000 JOY_Y_ADC_CHANNEL 7).st 3500
        JOY_Y_ADC_CHANNEL 8).st.live_timers = [8] :=
  ⟨(retarget_keeps_phase (adc_irq_handler init_state 3000 JOY_Y_ADC_CHANNEL 7).st 3500 8
      (by decide) (by decide) (by decide) (by decide)).2.1,
   (retarget_keeps_phase (adc_irq_handler init_state 3000 JOY_Y_ADC_CHANNEL 7).st 3500 8
      (by decide) (by decide) (by decide) (by decide)).2.2.2.2.2.2.2.2 (by decide)⟩

/-! ### The timer callback -/

/-- C15: `blink_led_callback` returns true; when `led_blinking_active` is true
it negates `led_is_on_in_blink_cycle` and drives the LED pin to the negated
value, when it is false it drives the pin low and leaves
`led_is_on_in_blink_cycle` alone; its one call is that `gpio_put`, and every
other field of the state (centres, last samples, activation flags, blink
period, `led_blinking_active`, timer handle, armed timers) is unchanged. -/
theorem blink_led_callback_effect (s : State) :
    (blink_led_callback s).2 = true ∧
    (blink_led_callback s).1.st =
      { s with
          led_is_on_in_blink_cycle :=
            if s.led_blinking_active then !s.led_is_on_in_blink_cycle
            else s.led_is_on_in_blink_cycle
          led_azul :=
            if s.led_blinking_active then !s.led_is_on_in_blink_cycle else false } ∧
    (blink_led_callback s).1.out =
      [Effect.gpio_put LED_AZUL_GPIO
        (if s.led_blinking_active then !s.led_is_on_in_blink_cycle else false)] ∧
    (blink_led_callback s).1.st.centro_y = s.centro_y ∧
    (blink_led_callback s).1.st.centro_x = s.centro_x ∧
    (blink_led_callback s).1.st.last_adc_y_value = s.last_adc_y_value ∧
    (blink_led_callback s).1.st.last_adc_x_value = s.last_adc_x_value ∧
    (blink_led_callback s).1.st.acionado_y = s.acionado_y ∧
    (blink_led_callback s).1.st.acionado_x = s.acionado_x ∧
    (blink_led_callback s).1.st.current_blink_delay_ms = s.current_blink_delay_ms ∧
    (blink_led_callback s).1.st.led_blinking_active = s.led_blinking_active := by
  rw [tick_eq]
  exact ⟨rfl, rfl, rfl, rfl, rfl, rfl, rfl, rfl, rfl, rfl, rfl⟩

/-! ### Edges of the X axis -/

/-- The X activation and deactivation notifications of one X dispatch. -/
theorem out_x_edge_eq (s : State) (fifo sel : Nat) (id : Int)
    (hsel : sel % 256 = JOY_X_ADC_CHANNEL) :
    (adc_irq_handler s fifo sel id).out.filter is_x_edge =
      if c_abs (wrap_int (((fifo % 65536 : Nat) : Int) - (s.centro_x : Int))) > DEADZONE_X
      then (if s.acionado_x then []
            else [Effect.print_x_on (fifo % 65536)
                    (wrap_int (((fifo % 65536 : Nat) : Int) - (s.centro_x : Int)))])
      else (if s.acionado_x then [Effect.print_x_off (fifo % 65536)] else []) := by
  rw [x_eq s fifo sel id hsel]
  generalize fifo % 65536 = valor
  by_cases h1 : c_abs (wrap_int ((valor : Int) - (s.last_adc_x_value : Int)))
      > FAST_MOVE_THRESHOLD <;>
  by_cases h2 : c_abs (wrap_int ((valor : Int) - (s.centro_x : Int))) > DEADZONE_X <;>
  cases hax : s.acionado_x <;>
  simp [h1, h2, is_x_edge]

/-- The flag `acionado_x` after an X dispatch of a 16-bit sample. -/
theorem x_flag_u16 (s : State) (v : Nat) (id : Int)
    (hv : v < 65536) (hc : s.centro_x < 65536) :
    (adc_irq_handler s v JOY_X_ADC_CHANNEL id).st.acionado_x
      = decide (|(v : Int) - (s.centro_x : Int)| > 150) := by
  rw [x_eq s v _ id sel_x, mod_u16 v hv, c_abs_sub_u16 _ _ hv hc]
  rfl

/-- The edge notifications of an X dispatch of a 16-bit sample. -/
theorem x_edge_u16 (s : State) (v : Nat) (id : Int)
    (hv : v < 65536) (hc : s.centro_x < 65536) :
    (adc_irq_handler s v JOY_X_ADC_CHANNEL id).out.filter is_x_edge =
      if |(v : Int) - (s.centro_x : Int)| > 150
      then (if s.acionado_x then []
            else [Effect.print_x_on v ((v : Int) - (s.centro_x : Int))])
      else (if s.acionado_x then [Effect.print_x_off v] else []) := by
  rw [out_x_edge_eq s v _ id sel_x, mod_u16 v hv, c_abs_sub_u16 _ _ hv hc,
    wrap_int_of_bounds _ (by omega) (by omega)]
  rfl

/-- A run of X samples that all lie on the side of the deadzone which
`acionado_x` already records emits no edge notification. -/
theorem x_run_quiet (samples : List Nat) (id : Int) (s : State) (b : Bool)
    (hc : s.centro_x < 65536)
    (hside : ∀ v, v ∈ samples →
      v < 65536 ∧ decide (|(v : Int) - (s.centro_x : Int)| > 150) = b)
    (hflag : s.acionado_x = b) :
    (run_out s (x_dispatches samples id)).filter is_x_edge = [] := by
  induction samples generalizing s with
  | nil => rfl
  | cons v vs ih =>
    obtain ⟨hv, hb⟩ := hside v (List.mem_cons_self v vs)
    have hcx := (handler_centres s v JOY_X_ADC_CHANNEL id).2
    have hrest := ih (adc_irq_handler s v JOY_X_ADC_CHANNEL id).st
      (by rw [hcx]; exact hc)
      (by
        intro w hw
        rw [hcx]
        exact hside w (List.mem_cons_of_mem v hw))
      (by rw [x_flag_u16 s v id hv hc]; exact hb)
    have hfirst : (adc_irq_handler s v JOY_X_ADC_CHANNEL id).out.filter is_x_edge = [] := by
      rw [x_edge_u16 s v id hv hc]
      cases b
      · have hb2 : ¬ |(v : Int) - (s.centro_x : Int)| > 150 := of_decide_eq_false hb
        rw [if_neg hb2, hflag]; rfl
      · have hb2 : |(v : Int) - (s.centro_x : Int)| > 150 := of_decide_eq_true hb
        rw [if_pos hb2, hflag]; rfl
    show (run_out s (Event.adc_irq v JOY_X_ADC_CHANNEL id :: x_dispatches vs id)).filter
      is_x_edge = []
    simp only [run_out, step, List.filter_append]
    rw [hfirst, hrest]
    rfl

/-- A run of X samples on one side of the deadzone emits one edge notification
at most. -/
theorem x_run_one_side (samples : List Nat) (id : Int) (s : State) (b : Bool)
    (hc : s.centro_x < 65536)
    (hside : ∀ v, v ∈ samples →
      v < 65536 ∧ decide (|(v : Int) - (s.centro_x : Int)| > 150) = b) :
    ((run_out s (x_dispatches samples id)).filter is_x_edge).length ≤ 1 := by
  cases samples with
  | nil => exact Nat.zero_le 1
  | cons v vs =>
    obtain ⟨hv, hb⟩ := hside v (List.mem_cons_self v vs)
    have hcx := (handler_centres s v JOY_X_ADC_CHANNEL id).2
    have hrest := x_run_quiet vs id (adc_irq_handler s v JOY_X_ADC_CHANNEL id).st b
      (by rw [hcx]; exact hc)
      (by
        intro w hw
        rw [hcx]
        exact hside w (List.mem_cons_of_mem v hw))
      (by rw [x_flag_u16 s v id hv hc]; exact hb)
    have hfirst :
        ((adc_irq_handler s v JOY_X_ADC_CHANNEL id).out.filter is_x_edge).length ≤ 1 := by
      rw [x_edge_u16 s v id hv hc]
      split <;> split <;> simp
    show ((run_out s (Event.adc_irq v JOY_X_ADC_CHANNEL id :: x_dispatches vs id)).filter
      is_x_edge).length ≤ 1
    simp only [run_out, step, List.filter_append]
    rw [hrest, List.append_nil]
    exact hfirst

/-- C16: for a 16-bit X sample and a 16-bit centre, the handler emits the X
activation notification exactly when `acionado_x` was false and
`|sample - centro_x| > 150`, the X deactivation notification exactly when
`acionado_x` was true and `|sample - centro_x| <= 150`, and neither otherwise;
so a run of consecutive X samples that all lie outside, or all lie inside, the
deadzone emits one such notification at most. -/
theorem x_edge_notifications (s : State) (sample : Nat) (id : Int)
    (hs : sample < 65536) (hc : s.centro_x < 65536) :
    ((adc_irq_handler s sample JOY_X_ADC_CHANNEL id).out.filter is_x_edge =
      if s.acionado_x = false ∧ |(sample : Int) - (s.centro_x : Int)| > 150
      then [Effect.print_x_on sample ((sample : Int) - (s.centro_x : Int))]
      else if s.acionado_x = true ∧ |(sample : Int) - (s.centro_x : Int)| ≤ 150
      then [Effect.print_x_off sample]
      else []) ∧
    (∀ samples : List Nat,
      ((∀ v, v ∈ samples → v < 65536 ∧ |(v : Int) - (s.centro_x : Int)| > 150) ∨
       (∀ v, v ∈ samples → v < 65536 ∧ |(v : Int) - (s.centro_x : Int)| ≤ 150)) →
      ((run_out s (x_dispatches samples id)).filter is_x_edge).length ≤ 1) := by
  constructor
  · rw [x_edge_u16 s sample id hs hc]
    by_cases h : |(sample : Int) - (s.centro_x : Int)| > 150
    · cases hax : s.acionado_x <;> simp [h]
    · have h2 : |(sample : Int) - (s.centro_x : Int)| ≤ 150 := not_lt.mp h
      cases hax : s.acionado_x <;> simp [h, h2]
  · intro samples hside
    rcases hside with hout | hin
    · exact x_run_one_side samples id s true hc
        (fun v hv => ⟨(hout v hv).1, decide_eq_true (hout v hv).2⟩)
    · exact x_run_one_side samples id s false hc
        (fun v hv => ⟨(hin v hv).1, decide_eq_false (not_lt.mpr (hin v hv).2)⟩)

/-- Instance of `x_edge_notifications` at the initial state: three X samples
outside the deadzone of the centre 2048 emit one notification, from the
first. -/
theorem x_edge_notifications_witness :
    (adc_irq_handler init_state 2500 JOY_X_ADC_CHANNEL 1).out.filter is_x_edge
      = [Effect.print_x_on 2500 452] ∧
    ((run_out init_state (x_dispatches [2500, 2600, 1000] 1)).filter is_x_edge).length ≤ 1 :=
  ⟨(x_edge_notifications init_state 2500 1 (by decide) (by decide)).1,
   (x_edge_notifications init_state 2500 1 (by decide) (by decide)).2 [2500, 2600, 1000]
      (Or.inl (by decide))⟩

/-! ### The divisor of the period computation -/

/-- C17: with the deadzone and the ADC full-scale value taken as arbitrary
non-negative parameters, also those for which `adc_range / 2 - deadzone` is
zero or negative, for every deflection beyond the deadzone the divisor
`max_movable_delta` of the period computation is at least 1 at the division,
and the resulting period lies in `[MIN_BLINK_DELAY_MS, MAX_BLINK_DELAY_MS]`;
this holds for the 32-bit computation and for the same computation in
unbounded arithmetic. -/
theorem divisor_at_least_one (deadzone adc_range abs_delta : Int)
    (hd : 0 ≤ deadzone) (hr : 0 ≤ adc_range) (hact : abs_delta > deadzone) :
    1 ≤ (blink_calc deadzone adc_range MIN_BLINK_DELAY_MS MAX_BLINK_DELAY_MS
          abs_delta).max_movable_delta ∧
    (blink_calc deadzone adc_range MIN_BLINK_DELAY_MS MAX_BLINK_DELAY_MS abs_delta).unclamped
      = wrap_int (MAX_BLINK_DELAY_MS - wrap_int
          ((blink_calc deadzone adc_range MIN_BLINK_DELAY_MS MAX_BLINK_DELAY_MS
              abs_delta).scaled.tdiv
            (blink_calc deadzone adc_range MIN_BLINK_DELAY_MS MAX_BLINK_DELAY_MS
              abs_delta).max_movable_delta)) ∧
    MIN_BLINK_DELAY_MS ≤ (blink_calc deadzone adc_range MIN_BLINK_DELAY_MS MAX_BLINK_DELAY_MS
          abs_delta).delay ∧
    (blink_calc deadzone adc_range MIN_BLINK_DELAY_MS MAX_BLINK_DELAY_MS abs_delta).delay
      ≤ MAX_BLINK_DELAY_MS ∧
    1 ≤ (blink_calc_exact deadzone adc_range MIN_BLINK_DELAY_MS MAX_BLINK_DELAY_MS
          abs_delta).max_movable_delta ∧
    MIN_BLINK_DELAY_MS ≤ (blink_calc_exact deadzone adc_range MIN_BLINK_DELAY_MS
          MAX_BLINK_DELAY_MS abs_delta).delay ∧
    (blink_calc_exact deadzone adc_range MIN_BLINK_DELAY_MS MAX_BLINK_DELAY_MS
          abs_delta).delay ≤ MAX_BLINK_DELAY_MS := by
  have _ := hd
  have _ := hr
  have _ := hact
  have hb := blink_calc_delay_range deadzone adc_range MIN_BLINK_DELAY_MS MAX_BLINK_DELAY_MS
    abs_delta (by decide)
  refine ⟨?_, rfl, hb.1, hb.2, ?_, ?_, ?_⟩
  · unfold blink_calc
    simp only
    split <;> omega
  · unfold blink_calc_exact
    simp only
    split <;> omega
  · unfold blink_calc_exact MIN_BLINK_DELAY_MS MAX_BLINK_DELAY_MS
    simp only
    split_ifs <;> omega
  · unfold blink_calc_exact MIN_BLINK_DELAY_MS MAX_BLINK_DELAY_MS
    simp only
    split_ifs <;> omega

/-- Instance of `divisor_at_least_one`: deadzone 3000 against full scale 4095
makes `adc_range / 2 - deadzone` negative; the divisor is then 1 and the period
500. -/
theorem divisor_at_least_one_witness :
    (blink_calc 3000 4095 MIN_BLINK_DELAY_MS MAX_BLINK_DELAY_MS 3500).max_movable_delta = 1 ∧
    (blink_calc 3000 4095 MIN_BLINK_DELAY_MS MAX_BLINK_DELAY_MS 3500).delay = 500 ∧
    1 ≤ (blink_calc 3000 4095 MIN_BLINK_DELAY_MS MAX_BLINK_DELAY_MS 3500).max_movable_delta :=
  ⟨by decide, by decide,
   (divisor_at_least_one 3000 4095 3500 (by decide) (by decide) (by decide)).1⟩

/-! ### The LED pin and the phase flag -/

/-- Every invocation keeps `led_follows_phase`. -/
theorem step_led_follows_phase (s : State) (e : Event) (h : led_follows_phase s) :
    led_follows_phase (step s e).st := by
  obtain ⟨h1, h2⟩ := h
  cases e with
  | adc_irq fifo sel id =>
    simp only [step]
    by_cases hy : sel % 256 = JOY_Y_ADC_CHANNEL
    · by_cases hact :
          c_abs (wrap_int (((fifo % 65536 : Nat) : Int) - (s.centro_y : Int))) > DEADZONE_Y
      · cases hb : s.led_blinking_active
        · rw [y_start_eq s fifo sel id hy hact hb]
          exact ⟨rfl, fun hf => absurd (show true = false from hf) (by decide)⟩
        · rw [y_retarget_eq s fifo sel id hy hact hb]
          exact ⟨h1, h2⟩
      · cases hb : s.led_blinking_active
        · rw [y_idle_eq s fifo sel id hy hact hb]; exact ⟨h1, h2⟩
        · rw [y_stop_eq s fifo sel id hy hact hb]
          exact ⟨rfl, fun _ => rfl⟩
    · by_cases hx : sel % 256 = JOY_X_ADC_CHANNEL
      · rw [x_eq s fifo sel id hx]; exact ⟨h1, h2⟩
      · rw [other_channel_eq s fifo sel id hy hx]; exact ⟨h1, h2⟩
  | timer_tick =>
    simp only [step]
    rw [tick_eq]
    cases hb : s.led_blinking_active
    · have hp := h2 hb
      unfold led_follows_phase
      simp [hb, hp]
    · unfold led_follows_phase
      simp [hb]

/-- The invariant `led_follows_phase` holds along any sequence of invocations. -/
theorem run_led_follows_phase (es : List Event) (s : State) (h : led_follows_phase s) :
    led_follows_phase (run s es) := by
  induction es generalizing s with
  | nil => exact h
  | cons e es ih => exact ih _ (step_led_follows_phase s e h)

/-- C19: starting from any state in which the LED pin is low and
`led_is_on_in_blink_cycle` and `led_blinking_active` are false (the state after
`init_led`), after any sequence of `adc_irq_handler` and `blink_led_callback`
invocations the LED pin equals `led_is_on_in_blink_cycle`, and both are off
whenever `led_blinking_active` is false. -/
theorem led_equals_phase_flag (s0 : State) (es : List Event)
    (hl : s0.led_azul = false) (hp : s0.led_is_on_in_blink_cycle = false)
    (hb : s0.led_blinking_active = false) :
    (run s0 es).led_azul = (run s0 es).led_is_on_in_blink_cycle ∧
    ((run s0 es).led_blinking_active = false →
      (run s0 es).led_azul = false ∧ (run s0 es).led_is_on_in_blink_cycle = false) := by
  have _ := hb
  have h := run_led_follows_phase es s0 ⟨hl.trans hp.symm, fun _ => hp⟩
  exact ⟨h.1, fun hf => ⟨h.1.trans (h.2 hf), h.2 hf⟩⟩

/-- Instance of `led_equals_phase_flag` at the initial state: start, two ticks,
a retarget, a stop and a stray tick. -/
theorem led_equals_phase_flag_witness :
    (run init_state [Event.adc_irq 3000 0 7, Event.timer_tick, Event.timer_tick,
        Event.adc_irq 3300 0 8, Event.adc_irq 2048 0 9, Event.timer_tick]).led_azul
      = (run init_state [Event.adc_irq 3000 0 7, Event.timer_tick, Event.timer_tick,
        Event.adc_irq 3300 0 8, Event.adc_irq 2048 0 9,
        Event.timer_tick]).led_is_on_in_blink_cycle :=
  (led_equals_phase_flag init_state
    [Event.adc_irq 3000 0 7, Event.timer_tick, Event.timer_tick, Event.adc_irq 3300 0 8,
      Event.adc_irq 2048 0 9, Event.timer_tick] rfl rfl rfl).1

/-! ### No 32-bit overflow -/

/-- The computation in unbounded arithmetic, with the constants of the source
and a deflection beyond the deadzone. -/
theorem blink_calc_exact_src (a : Int) (h1 : 150 < a) (h2 : a ≤ 65535) :
    blink_calc_exact DEADZONE_Y ADC_RANGE MIN_BLINK_DELAY_MS MAX_BLINK_DELAY_MS a =
      { effective_delta := min (a - 150) 1897,
        max_movable_delta := 1897,
        scaled := min (a - 150) 1897 * 450,
        unclamped := 500 - (min (a - 150) 1897 * 450) / 1897,
        delay := 500 - (min (a - 150) 1897 * 450) / 1897 } := by
  have hm : ADC_RANGE.tdiv 2 - DEADZONE_Y = 1897 := by decide
  have he : a - DEADZONE_Y = a - 150 := rfl
  have hw : MAX_BLINK_DELAY_MS - MIN_BLINK_DELAY_MS = 450 := by decide
  have hmin : (if a - 150 > 1897 then (1897 : Int) else a - 150) = min (a - 150) 1897 := by
    split <;> omega
  have hi : (if (1897 : Int) ≤ 0 then (1 : Int) else 1897) = 1897 := by decide
  have hd : (min (a - 150) 1897 * 450).tdiv 1897 = (min (a - 150) 1897 * 450) / 1897 :=
    Int.tdiv_eq_ediv (by omega) (by omega)
  have hu : MAX_BLINK_DELAY_MS - (min (a - 150) 1897 * 450) / 1897
      = 500 - (min (a - 150) 1897 * 450) / 1897 := rfl
  unfold blink_calc_exact
  simp only [hm, he, hw, hmin, hi, hd, hu]
  have hc1 : ¬ (500 - (min (a - 150) 1897 * 450) / 1897 < MIN_BLINK_DELAY_MS) := by
    unfold MIN_BLINK_DELAY_MS; omega
  have hc2 : ¬ (500 - (min (a - 150) 1897 * 450) / 1897 > MAX_BLINK_DELAY_MS) := by
    unfold MAX_BLINK_DELAY_MS; omega
  simp [hc1, hc2]

/-- C20: for every 16-bit sample and every 16-bit centre, `delta_y` fits a
signed 32-bit `int` and is computed exactly; when the sample is activated, so do
`effective_delta` (before and after its cap), the product
`effective_delta * 450`, the quotient and the pre-clamp period, so that the
32-bit computation of the handler agrees with the same computation in unbounded
integer arithmetic; and for 16-bit readings every partial sum of the
calibration loop fits `uint32_t` (the accumulator holds the exact sum) and
the averaged centre of each axis fits `uint16_t`, so it is stored without
truncation. -/
theorem period_computation_fits_int (s : State) (sample : Nat) (id : Int)
    (hs : sample < 65536) (hc : s.centro_y < 65536) :
    fits_int ((sample : Int) - (s.centro_y : Int)) ∧
    wrap_int (((sample % 65536 : Nat) : Int) - (s.centro_y : Int))
      = (sample : Int) - (s.centro_y : Int) ∧
    c_abs (wrap_int (((sample % 65536 : Nat) : Int) - (s.centro_y : Int)))
      = |(sample : Int) - (s.centro_y : Int)| ∧
    (|(sample : Int) - (s.centro_y : Int)| > 150 →
      fits_int (|(sample : Int) - (s.centro_y : Int)| - 150) ∧
      fits_int (blink_calc_exact DEADZONE_Y ADC_RANGE MIN_BLINK_DELAY_MS MAX_BLINK_DELAY_MS
        |(sample : Int) - (s.centro_y : Int)|).effective_delta ∧
      fits_int (blink_calc_exact DEADZONE_Y ADC_RANGE MIN_BLINK_DELAY_MS MAX_BLINK_DELAY_MS
        |(sample : Int) - (s.centro_y : Int)|).scaled ∧
      (blink_calc_exact DEADZONE_Y ADC_RANGE MIN_BLINK_DELAY_MS MAX_BLINK_DELAY_MS
        |(sample : Int) - (s.centro_y : Int)|).scaled
        = (blink_calc_exact DEADZONE_Y ADC_RANGE MIN_BLINK_DELAY_MS MAX_BLINK_DELAY_MS
            |(sample : Int) - (s.centro_y : Int)|).effective_delta * 450 ∧
      fits_int ((blink_calc_exact DEADZONE_Y ADC_RANGE MIN_BLINK_DELAY_MS MAX_BLINK_DELAY_MS
        |(sample : Int) - (s.centro_y : Int)|).scaled.tdiv
          (blink_calc_exact DEADZONE_Y ADC_RANGE MIN_BLINK_DELAY_MS MAX_BLINK_DELAY_MS
            |(sample : Int) - (s.centro_y : Int)|).max_movable_delta) ∧
      fits_int (blink_calc_exact DEADZONE_Y ADC_RANGE MIN_BLINK_DELAY_MS MAX_BLINK_DELAY_MS
        |(sample : Int) - (s.centro_y : Int)|).unclamped ∧
      blink_calc DEADZONE_Y ADC_RANGE MIN_BLINK_DELAY_MS MAX_BLINK_DELAY_MS
          (c_abs (wrap_int (((sample % 65536 : Nat) : Int) - (s.centro_y : Int))))
        = blink_calc_exact DEADZONE_Y ADC_RANGE MIN_BLINK_DELAY_MS MAX_BLINK_DELAY_MS
            |(sample : Int) - (s.centro_y : Int)| ∧
      (adc_irq_handler s sample JOY_Y_ADC_CHANNEL id).st.current_blink_delay_ms
        = (blink_calc_exact DEADZONE_Y ADC_RANGE MIN_BLINK_DELAY_MS MAX_BLINK_DELAY_MS
            |(sample : Int) - (s.centro_y : Int)|).delay) ∧
    (∀ (adc_y adc_x : Nat → Nat),
      (∀ i, i < 50 → adc_y i < 65536) → (∀ i, i < 50 → adc_x i < 65536) →
      (∀ n, n ≤ 50 →
        (Finset.range n).sum adc_y < 4294967296 ∧
        calib_sum adc_y n = (Finset.range n).sum adc_y ∧
        (Finset.range n).sum adc_x < 4294967296 ∧
        calib_sum adc_x n = (Finset.range n).sum adc_x) ∧
      (Finset.range 50).sum adc_y / 50 < 65536 ∧
      (Finset.range 50).sum adc_x / 50 < 65536 ∧
      (calibrar_joystick s adc_y adc_x).st.centro_y = (Finset.range 50).sum adc_y / 50 ∧
      (calibrar_joystick s adc_y adc_x).st.centro_x = (Finset.range 50).sum adc_x / 50) := by
  have hw : wrap_int (((sample % 65536 : Nat) : Int) - (s.centro_y : Int))
      = (sample : Int) - (s.centro_y : Int) := by
    rw [mod_u16 sample hs]; exact wrap_int_of_bounds _ (by omega) (by omega)
  have habs : c_abs (wrap_int (((sample % 65536 : Nat) : Int) - (s.centro_y : Int)))
      = |(sample : Int) - (s.centro_y : Int)| := by
    rw [mod_u16 sample hs]; exact c_abs_sub_u16 sample s.centro_y hs hc
  refine ⟨?_, hw, habs, ?_, ?_⟩
  · unfold fits_int; omega
  · intro hact
    have hle : |(sample : Int) - (s.centro_y : Int)| ≤ 65535 := by
      rw [abs_le]; omega
    have hdelay := y_active_delay_u16 s sample id hs hc hact
    rw [habs, blink_calc_src _ hact hle, blink_calc_exact_src _ hact hle, hdelay]
    generalize |(sample : Int) - (s.centro_y : Int)| = a at *
    have hq : (min (a - 150) 1897 * 450).tdiv 1897 = (min (a - 150) 1897 * 450) / 1897 :=
      Int.tdiv_eq_ediv (by omega) (by omega)
    refine ⟨?_, ?_, ?_, rfl, ?_, ?_, rfl, rfl⟩
    · unfold fits_int; omega
    · unfold fits_int; simp only; omega
    · unfold fits_int; simp only; omega
    · unfold fits_int; simp only; rw [hq]; omega
    · unfold fits_int; simp only; omega
  · intro adc_y adc_x hy hx
    have part : ∀ (f : Nat → Nat), (∀ i, i < 50 → f i < 65536) → ∀ n, n ≤ 50 →
        (Finset.range n).sum f < 4294967296 ∧ calib_sum f n = (Finset.range n).sum f := by
      intro f hf n hn
      have h1 := calib_sum_exact f n (by omega)
      rw [sum_mod_u16 f n (fun i hi => hf i (by omega))] at h1
      have h2 : n * 65535 ≤ 50 * 65535 := Nat.mul_le_mul_right _ hn
      exact ⟨by omega, h1.1⟩
    have small : ∀ (f : Nat → Nat), (∀ i, i < 50 → f i < 65536) →
        (Finset.range 50).sum f / 50 < 65536 := by
      intro f hf
      have h1 := calib_sum_exact f 50 (by decide)
      rw [sum_mod_u16 f 50 hf] at h1
      have := h1.2
      omega
    refine ⟨?_, small adc_y hy, small adc_x hx, calib_center_exact adc_y hy,
      calib_center_exact adc_x hx⟩
    intro n hn
    exact ⟨(part adc_y hy n hn).1, (part adc_y hy n hn).2, (part adc_x hx n hn).1,
      (part adc_x hx n hn).2⟩

/-- Instance of `period_computation_fits_int`: the extreme 16-bit sample 65535
against the centre 0 of a state calibrated to zero. -/
theorem period_computation_fits_int_witness :
    (adc_irq_handler { init_state with centro_y := 0 } 65535 JOY_Y_ADC_CHANNEL
        1).st.current_blink_delay_ms
      = (blink_calc_exact DEADZONE_Y ADC_RANGE MIN_BLINK_DELAY_MS MAX_BLINK_DELAY_MS
          |((65535 : Nat) : Int) - ((0 : Nat) : Int)|).delay :=
  (period_computation_fits_int { init_state with centro_y := 0 } 65535 1
    (by decide) (by decide)).2.2.2.1 (by decide) |>.2.2.2.2.2.2.2

end JoystickIrq
